import Mathlib

/-!
# UDP tunnel over a SOCKS5 UDP-associate session (tunnel/udp2socks5.go)

A shallow embedding of `tunnel/udp2socks5.go`.

* Byte slices are lists of naturals, the nil slice being the empty list.
* Go errors are their messages; a nil error is `none`.
* Every call that leaves the tunnel (sockets, queues, NAT registry, interface,
  cache, goroutine start) is recorded, in program order, in a trace of `Effect`s.
  Calls to `log` are not recorded.
* Results that the outside world decides (what a socket call returns, which ready
  case a `select` takes) are arguments of the embedded functions.
* A run-time panic is a `fault` carrying the panic message.
-/

namespace Tunnel

/-! ## Library types and functions used by the file -/

/-- Go byte slice; nil is the empty list. -/
abbrev Bytes := List Nat

/-- Go error value, as its message. -/
abbrev Error := String

/-- The type net.IP: a byte slice, nil when parsing failed. -/
abbrev IP := List Nat

/-- The type tcpip.Address of netstack: a string of raw address bytes. -/
abbrev Address := List Nat

/-- Method tcpip.Address.To4: the 4-byte form of an IPv4 address (a 4-byte address, or
a 16-byte IPv4-mapped one), and the empty address otherwise. -/
def Address.To4 (a : Address) : Address :=
  if a.length = 4 then a
  else if a.length = 16 ∧ (a.take 10).all (fun b => b == 0) ∧ (a.drop 10).take 2 = [0xff, 0xff] then
    a.drop 12
  else []

/-- Two lowercase hexadecimal digits of one byte, as the verb x of fmt prints it. -/
def hexByte (b : Nat) : List Char :=
  [Nat.digitChar (b / 16 % 16), Nat.digitChar (b % 16)]

/-- Method tcpip.Address.String: dotted decimal for a 4-byte address, hexadecimal bytes
in the default case. The 16-byte (IPv6) case of the library is not modelled and falls
into the default case; the file only ever prints the result of To4, whose length
is 4 or 0. -/
def Address.String (a : Address) : String :=
  match a with
  | [a0, a1, a2, a3] =>
    String.mk (Nat.toDigits 10 a0 ++ '.' :: Nat.toDigits 10 a1 ++ '.' :: Nat.toDigits 10 a2
      ++ '.' :: Nat.toDigits 10 a3)
  | _ => String.mk (a.flatMap hexByte)

/-- Function net.IPv4: the 16-byte IPv4-mapped form of a.b.c.d. -/
def IPv4 (a b c d : Nat) : IP :=
  [0, 0, 0, 0, 0, 0, 0, 0, 0, 0, 0xff, 0xff, a, b, c, d]

/-- Constant big of package net: bound above which dtoi gives up. -/
def big : Nat := 0xFFFFFF

/-- Loop of net.dtoi: consumes leading decimal digits, accumulating the value n and
the number i of characters read; the flag is false on overflow. -/
def dtoiLoop : List Char → Nat → Nat → Nat × Nat × Bool
  | [], n, i => (n, i, true)
  | c :: cs, n, i =>
    if '0'.toNat ≤ c.toNat ∧ c.toNat ≤ '9'.toNat then
      let n1 := n * 10 + (c.toNat - '0'.toNat)
      if n1 ≥ big then (big, i, false) else dtoiLoop cs n1 (i + 1)
    else (n, i, true)

/-- Function net.dtoi: decimal to integer; returns value, characters consumed, success. -/
def dtoi (s : List Char) : Nat × Nat × Bool :=
  match dtoiLoop s 0 0 with
  | (n, i, false) => (n, i, false)
  | (n, i, true) => if i = 0 then (0, 0, false) else (n, i, true)

/-- Loop of net.parseIPv4 from octet index i on, with the octets read so far in p. -/
def parseIPv4Loop : Nat → Nat → List Char → List Nat → Option (List Nat × List Char)
  | 0, _, s, p => some (p, s)
  | fuel + 1, i, s, p =>
    if s.length = 0 then none
    else
      match (if i > 0 then (if s.head? ≠ some '.' then none else some (s.drop 1)) else some s) with
      | none => none
      | some s1 =>
        match dtoi s1 with
        | (n, c, ok) =>
          if !ok ∨ n > 0xFF then none
          else parseIPv4Loop fuel (i + 1) (s1.drop c) (p ++ [n])

/-- Function net.parseIPv4: four dot-separated decimal octets, nothing after them. -/
def parseIPv4 (s : List Char) : IP :=
  match parseIPv4Loop 4 0 s [] with
  | some ([a, b, c, d], []) => IPv4 a b c d
  | _ => []

/-- Function net.ParseIP: the first dot or colon decides the syntax. The IPv6 syntax
(a colon first) is not modelled and yields nil; the file only parses strings
printed by Address.String after To4, which never contain a colon. -/
def ParseIP (s : String) : IP :=
  match s.data.find? (fun c => c == '.' || c == ':') with
  | some '.' => parseIPv4 s.data
  | _ => []

/-! ### gosocks -/

/-- Constant gosocks.SocksCmdUDPAssociate. -/
def SocksCmdUDPAssociate : Nat := 0x03
/-- Constant gosocks.SocksIPv4Host. -/
def SocksIPv4Host : Nat := 0x01
/-- Constant gosocks.SocksDomainHost. -/
def SocksDomainHost : Nat := 0x03
/-- Constant gosocks.SocksSucceeded. -/
def SocksSucceeded : Nat := 0x00

/-- Struct gosocks.SocksRequest. -/
structure SocksRequest where
  Cmd : Nat
  HostType : Nat
  DstHost : String
  DstPort : Nat
  deriving DecidableEq, Repr

/-- Struct gosocks.SocksReply. -/
structure SocksReply where
  Rep : Nat
  HostType : Nat
  BndHost : String
  BndPort : Nat
  deriving DecidableEq, Repr

/-- Struct gosocks.UDPRequest. -/
structure UDPRequest where
  Frag : Nat
  HostType : Nat
  DstHost : String
  DstPort : Nat
  Data : Bytes
  deriving DecidableEq, Repr

/-! ### net -/

/-- Struct net.TCPAddr and net.UDPAddr. -/
structure NetAddr where
  IP : IP
  Port : Nat
  Zone : String
  deriving DecidableEq, Repr

/-- Control connection (gosocks.SocksConn): its local address and whether it is closed. -/
structure SocksConn where
  LocalAddr : NetAddr
  closed : Bool
  deriving DecidableEq, Repr

/-- Relay socket (net.UDPConn): the address it is bound to and whether it is closed. -/
structure UDPConn where
  LocalAddr : NetAddr
  closed : Bool
  deriving DecidableEq, Repr

/-! ### netstack -/

/-- Struct stack.TransportEndpointID. -/
structure TransportEndpointID where
  LocalPort : Nat
  LocalAddress : Address
  RemotePort : Nat
  RemoteAddress : Address
  deriving DecidableEq, Repr

/-- Struct tcpip.FullAddress. -/
structure FullAddress where
  NIC : Nat
  Addr : Address
  Port : Nat
  deriving DecidableEq, Repr

/-! ### dns and tun2socks -/

/-- Struct dns.DomainRecord, the fields the file reads. -/
structure DomainRecord where
  Hostname : String
  Proxy : String
  deriving DecidableEq, Repr

/-- Fake DNS table: the lookup GetByIP, nil result as none. -/
structure DnsTable where
  GetByIP : IP → Option DomainRecord

/-- Struct dns.Dns, the field the file reads. -/
structure Dns where
  DnsTablePtr : DnsTable

/-- Section Dns of the configuration. -/
structure DnsConfig where
  DnsMode : String

/-- Configuration: GetProxy by name and the default UdpProxy. -/
structure Config where
  Dns : DnsConfig
  GetProxy : String → String
  UdpProxy : String

/-- Struct tun2socks.App, the fields the file reads; FakeDns is none when nil. The
interface Ifce is represented by the results of its Write calls, which are arguments
of writeToLocal. -/
structure App where
  FakeDns : Option Dns
  Cfg : Config

/-! ## Package-level declarations and collaborators outside the file -/

/-- Modelled from the spec: the type TunnelStatus is declared in another file of the
package; the spec gives the enumeration Created, Proxying, Closed, with Created the
status of a session that was just set up (the zero value of the field). -/
inductive TunnelStatus where
  | StatusCreated
  | StatusProxying
  | StatusClosed
  deriving DecidableEq, Repr

open TunnelStatus

/-- Declarations the file uses and does not define: the constant PktChannelSize of the
package, the packet synthesiser util.CreateDNSResponse (nil result as none), the
envelope codec of gosocks, and whether the global dns.DNSCache is non-nil. -/
structure Env where
  PktChannelSize : Nat
  CreateDNSResponse : IP → Nat → IP → Nat → Bytes → Option Bytes
  PackUDPRequest : UDPRequest → Bytes
  ParseUDPRequest : Bytes → Except Error UDPRequest
  DNSCache : Bool

/-! ## Channels, contexts, effects -/

/-- Buffered Go channel of byte slices. -/
structure Chan where
  buf : List Bytes
  cap : Nat
  closed : Bool
  deriving DecidableEq, Repr

/-- Statement make(chan []byte, n). -/
def Chan.make (n : Nat) : Chan := { buf := [], cap := n, closed := false }

/-- Receive: the oldest buffered value; the zero value (nil) from a closed and drained
channel; none when the receive would block. -/
def Chan.recv (c : Chan) : Option (Bytes × Chan) :=
  match c.buf with
  | x :: rest => some (x, { c with buf := rest })
  | [] => if c.closed then some ([], c) else none

/-- Result of a send. -/
inductive SendResult where
  | sent (c : Chan)
  | blocked
  | sendOnClosed
  deriving DecidableEq, Repr

/-- Send: panics on a closed channel, blocks on a full buffer, else appends. -/
def Chan.send (c : Chan) (x : Bytes) : SendResult :=
  if c.closed then .sendOnClosed
  else if c.buf.length < c.cap then .sent { c with buf := c.buf ++ [x] }
  else .blocked

/-- Cancellable context: whether Done is closed. -/
structure Context where
  done : Bool
  deriving DecidableEq, Repr

/-- Field ctxCancel: nil, or the function cancelling the context stored beside it. -/
inductive CancelFunc where
  | nilFunc
  | cancelCtx
  deriving DecidableEq, Repr

/-- The three loops started by Run. -/
inductive Loop where
  | writeToLocal
  | readFromRemote
  | writeToRemote
  deriving DecidableEq, Repr

/-- Calls that leave the tunnel, as recorded in traces. -/
inductive Effect where
  | Dial (proxy : String)
  | ListenUDP (addr : NetAddr)
  | UdpSetDeadline
  | WriteSocksRequest (req : SocksRequest)
  | ReadSocksReply
  | TcpSetDeadline
  | TcpClose
  | UdpClose
  | Go (l : Loop)
  | CtxCancel
  | SetStatus (s : TunnelStatus)
  | DelUDPNat (port : Nat)
  | CloseLocalPackets
  | CloseRemotePackets
  | WriteTo (b : Bytes) (host : String) (port : Nat)
  | ReadFromUDP
  | SendRemotePackets (data : Bytes)
  | CreateDNSResponse (src : IP) (srcPort : Nat) (dst : IP) (dstPort : Nat) (payload : Bytes)
  | IfceWrite (pkt : Bytes) (err : Option Error)
  | DNSCacheStore (chunk : Bytes)
  | CallClose (reason : Error)
  deriving DecidableEq, Repr

/-! ## The tunnel -/

/-- Struct UdpTunnel. The field closeOne holds whether the Once has fired; rwMutex is
not represented (calls are atomic here). -/
structure UdpTunnel where
  localEndpoint : TransportEndpointID
  socks5TcpConn : SocksConn
  socks5UdpListen : UDPConn
  RemotePackets : Chan
  LocalPackets : Chan
  ctx : Option Context
  ctxCancel : CancelFunc
  localAddr : FullAddress
  cmdUDPAssociateReply : SocksReply
  closeOne : Bool
  status : TunnelStatus
  app : App

/-- Results of the network calls made during setup. -/
structure SetupNet where
  Dial : String → Except Error SocksConn
  ListenUDP : NetAddr → Except Error UDPConn
  WriteSocksRequest : SocksRequest → Option Error
  ReadSocksReply : Except Error SocksReply

/-- What NewUdpTunnel returns, with the trace of its calls. -/
structure NewResult where
  tunnel : Option UdpTunnel
  err : Option Error
  trace : List Effect

/-- Proxy selection at the head of NewUdpTunnel (lines 43 to 55). -/
def selectProxy (endpoint : TransportEndpointID) (app : App) : String :=
  let remoteHost := endpoint.LocalAddress.To4.String
  let proxy :=
    match app.FakeDns with
    | some fd =>
      match fd.DnsTablePtr.GetByIP (ParseIP remoteHost) with
      | some record => app.Cfg.GetProxy record.Proxy
      | none => ""
    | none => ""
  if proxy = "" then app.Cfg.UdpProxy else proxy

/-- The UDP-associate request written on the control connection. -/
def associateRequest : SocksRequest :=
  { Cmd := SocksCmdUDPAssociate, HostType := SocksIPv4Host, DstHost := "0.0.0.0", DstPort := 0 }

/-- Function NewUdpTunnel. -/
def NewUdpTunnel (env : Env) (net : SetupNet) (endpoint : TransportEndpointID)
    (localAddr : FullAddress) (app : App) : NewResult :=
  let proxy := selectProxy endpoint app
  match net.Dial proxy with
  | .error err => { tunnel := none, err := some err, trace := [.Dial proxy] }
  | .ok socks5TcpConn =>
    let udpSocks5Addr := socks5TcpConn.LocalAddr
    let laddr : NetAddr := { IP := udpSocks5Addr.IP, Port := 0, Zone := udpSocks5Addr.Zone }
    match net.ListenUDP laddr with
    | .error err =>
      { tunnel := none, err := some err, trace := [.Dial proxy, .ListenUDP laddr, .TcpClose] }
    | .ok udpSocks5Listen =>
      match net.WriteSocksRequest associateRequest with
      | some err =>
        { tunnel := none, err := some err,
          trace := [.Dial proxy, .ListenUDP laddr, .UdpSetDeadline,
            .WriteSocksRequest associateRequest, .TcpClose, .UdpClose] }
      | none =>
        match net.ReadSocksReply with
        | .error err =>
          { tunnel := none, err := some err,
            trace := [.Dial proxy, .ListenUDP laddr, .UdpSetDeadline,
              .WriteSocksRequest associateRequest, .ReadSocksReply, .TcpClose, .UdpClose] }
        | .ok cmdUDPAssociateReply =>
          -- here err is the nil error of the successful ReadSocksReply
          let err : Option Error := none
          if cmdUDPAssociateReply.Rep ≠ SocksSucceeded then
            { tunnel := none, err := err,
              trace := [.Dial proxy, .ListenUDP laddr, .UdpSetDeadline,
                .WriteSocksRequest associateRequest, .ReadSocksReply, .TcpClose, .UdpClose] }
          else
            { tunnel := some
                { localEndpoint := endpoint
                  socks5TcpConn := socks5TcpConn
                  socks5UdpListen := udpSocks5Listen
                  RemotePackets := Chan.make env.PktChannelSize
                  LocalPackets := Chan.make env.PktChannelSize
                  ctx := none
                  ctxCancel := .nilFunc
                  localAddr := localAddr
                  cmdUDPAssociateReply := cmdUDPAssociateReply
                  closeOne := false
                  status := StatusCreated
                  app := app },
              err := none,
              trace := [.Dial proxy, .ListenUDP laddr, .UdpSetDeadline,
                .WriteSocksRequest associateRequest, .ReadSocksReply, .TcpSetDeadline] }

/-- Result of a call on a tunnel: the tunnel after it, the calls it made, and the panic
message if it panicked. -/
structure CallResult where
  tunnel : UdpTunnel
  trace : List Effect
  fault : Option String

/-- Method SetStatus. -/
def SetStatus (t : UdpTunnel) (s : TunnelStatus) : UdpTunnel := { t with status := s }

/-- Method Status. -/
def Status (t : UdpTunnel) : TunnelStatus := t.status

/-- Method Run. -/
def Run (t : UdpTunnel) : CallResult :=
  let t := { t with ctx := some { done := false }, ctxCancel := .cancelCtx }
  let t := SetStatus t StatusProxying
  { tunnel := t,
    trace := [.Go .writeToLocal, .Go .readFromRemote, .Go .writeToRemote, .SetStatus StatusProxying],
    fault := none }

/-- Method Close. The Once is marked as fired also when its function panics (the
mark is deferred inside sync.Once.Do). Calling the nil ctxCancel panics; closing a
closed channel panics. -/
def Close (t : UdpTunnel) (_reason : Error) : CallResult :=
  if t.closeOne then { tunnel := t, trace := [], fault := none }
  else
    let t := { t with closeOne := true }
    match t.ctxCancel with
    | .nilFunc =>
      { tunnel := t, trace := [],
        fault := some "runtime error: invalid memory address or nil pointer dereference" }
    | .cancelCtx =>
      let t := { t with ctx := t.ctx.map (fun _ => { done := true }) }
      let t := SetStatus t StatusClosed
      let t := { t with socks5TcpConn := { t.socks5TcpConn with closed := true } }
      let t := { t with socks5UdpListen := { t.socks5UdpListen with closed := true } }
      let tr : List Effect :=
        [.CtxCancel, .SetStatus StatusClosed, .TcpClose, .UdpClose, .DelUDPNat t.localAddr.Port]
      if t.LocalPackets.closed then
        { tunnel := t, trace := tr, fault := some "close of closed channel" }
      else
        let t := { t with LocalPackets := { t.LocalPackets with closed := true } }
        if t.RemotePackets.closed then
          { tunnel := t, trace := tr ++ [.CloseLocalPackets], fault := some "close of closed channel" }
        else
          let t := { t with RemotePackets := { t.RemotePackets with closed := true } }
          { tunnel := t, trace := tr ++ [.CloseLocalPackets, .CloseRemotePackets], fault := none }

/-! ## The three loops, one iteration at a time -/

/-- How an iteration of a loop ends: go round again, leave the loop, stay blocked in
the select or the send, or panic. -/
inductive Ctl where
  | next
  | stop
  | blocked
  | fault (msg : String)
  deriving DecidableEq, Repr

/-- Result of one iteration of a loop. -/
structure IterResult where
  tunnel : UdpTunnel
  trace : List Effect
  ctl : Ctl

/-- Call of Close from a loop, followed by leaving the loop: the call is recorded with
its reason, then Close runs. -/
def closeAndStop (t : UdpTunnel) (pre : List Effect) (reason : Error) : IterResult :=
  let r := Close t reason
  { tunnel := r.tunnel, trace := pre ++ .CallClose reason :: r.trace,
    ctl := match r.fault with
      | some msg => .fault msg
      | none => .stop }

/-- The UDPRequest built by writeToRemote for a chunk (lines 149 to 168). -/
def writeToRemoteRequest (t : UdpTunnel) (chunk : Bytes) : UDPRequest :=
  let remoteHost := t.localEndpoint.LocalAddress.To4.String
  let remotePort := t.localEndpoint.LocalPort
  let hostType := SocksIPv4Host
  let hostAndType : String × Nat :=
    match t.app.FakeDns with
    | some fd =>
      match fd.DnsTablePtr.GetByIP (ParseIP remoteHost) with
      | some record => (record.Hostname, SocksDomainHost)
      | none => (remoteHost, hostType)
    | none => (remoteHost, hostType)
  { Frag := 0, HostType := hostAndType.2, DstHost := hostAndType.1, DstPort := remotePort,
    Data := chunk }

/-- Body of writeToRemote for a received chunk (lines 149 to 176); sendErr is the error
returned by WriteTo. -/
def writeToRemoteChunk (env : Env) (t : UdpTunnel) (chunk : Bytes) (sendErr : Option Error) :
    IterResult :=
  let req := writeToRemoteRequest t chunk
  let w : Effect := .WriteTo (env.PackUDPRequest req) t.cmdUDPAssociateReply.BndHost
    t.cmdUDPAssociateReply.BndPort
  match sendErr with
  | some err => closeAndStop t [w] err
  | none => { tunnel := t, trace := [w], ctl := .next }

/-- One iteration of the loop of writeToRemote. When both cases of the select are
ready, pickDone tells which one is taken. -/
def writeToRemote (env : Env) (t : UdpTunnel) (pickDone : Bool) (sendErr : Option Error) :
    IterResult :=
  match t.ctx with
  | none =>
    { tunnel := t, trace := [],
      ctl := .fault "runtime error: invalid memory address or nil pointer dereference" }
  | some c =>
    match t.LocalPackets.recv with
    | none => { tunnel := t, trace := [], ctl := if c.done then .stop else .blocked }
    | some (chunk, ch) =>
      if c.done ∧ pickDone then { tunnel := t, trace := [], ctl := .stop }
      else writeToRemoteChunk env { t with LocalPackets := ch } chunk sendErr

/-- End of an iteration of readFromRemote (lines 202 to 208): a receive error closes
the tunnel and leaves the loop. -/
def readFromRemoteErr (t : UdpTunnel) (pre : List Effect) (err : Option Error) : IterResult :=
  match err with
  | some e => closeAndStop t pre e
  | none => { tunnel := t, trace := pre, ctl := .next }

/-- The send on RemotePackets in readFromRemote (line 199) and what follows it in the
iteration. A send that blocks leaves the iteration parked at the send. -/
def readFromRemoteSend (t : UdpTunnel) (pre : List Effect) (data : Bytes) (err : Option Error) :
    IterResult :=
  match t.RemotePackets.send data with
  | .sent ch =>
    readFromRemoteErr { t with RemotePackets := ch } (pre ++ [.SendRemotePackets data]) err
  | .blocked => { tunnel := t, trace := pre, ctl := .blocked }
  | .sendOnClosed => { tunnel := t, trace := pre, ctl := .fault "send on closed channel" }

/-- One iteration of the loop of readFromRemote; recvd is the datagram that arrives
(of which the buffer keeps PktChannelSize bytes) and err the error of ReadFromUDP. -/
def readFromRemote (env : Env) (t : UdpTunnel) (recvd : Bytes) (err : Option Error) : IterResult :=
  match t.ctx with
  | none =>
    { tunnel := t, trace := [],
      ctl := .fault "runtime error: invalid memory address or nil pointer dereference" }
  | some c =>
    if c.done then { tunnel := t, trace := [], ctl := .stop }
    else
      let udpSocks5Buf := recvd.take env.PktChannelSize
      let n := udpSocks5Buf.length
      if n > 0 then
        match env.ParseUDPRequest udpSocks5Buf with
        | .error perr => closeAndStop t [.ReadFromUDP] perr
        | .ok udpReq =>
          if t.status ≠ StatusClosed then readFromRemoteSend t [.ReadFromUDP] udpReq.Data err
          else readFromRemoteErr t [.ReadFromUDP] err
      else readFromRemoteErr t [.ReadFromUDP] err

/-- The packet writeToLocal has synthesised for a chunk (lines 221 to 223); none when
the synthesiser returns nil. -/
def writeToLocalPacket (env : Env) (t : UdpTunnel) (chunk : Bytes) : Option Bytes :=
  let remoteHost := t.localEndpoint.LocalAddress.To4.String
  let remotePort := t.localEndpoint.LocalPort
  env.CreateDNSResponse (ParseIP remoteHost) remotePort (ParseIP t.localAddr.Addr.To4.String)
    t.localAddr.Port chunk

/-- Body of writeToLocal for a received chunk (lines 221 to 245); writeErr is the error
returned by the Write of the interface. -/
def writeToLocalChunk (env : Env) (t : UdpTunnel) (chunk : Bytes) (writeErr : Option Error) :
    IterResult :=
  let remoteHost := t.localEndpoint.LocalAddress.To4.String
  let remotePort := t.localEndpoint.LocalPort
  let src := ParseIP remoteHost
  let dst := ParseIP t.localAddr.Addr.To4.String
  let call : Effect := .CreateDNSResponse src remotePort dst t.localAddr.Port chunk
  match writeToLocalPacket env t chunk with
  | none => closeAndStop t [call] "pack ip packet return nil"
  | some pkt =>
    match writeErr with
    | some err => closeAndStop t [call, .IfceWrite pkt (some err)] err
    | none =>
      let store : List Effect :=
        if t.app.Cfg.Dns.DnsMode = "udp_relay_via_socks5" then
          if env.DNSCache then [.DNSCacheStore chunk] else []
        else []
      closeAndStop t (call :: .IfceWrite pkt none :: store) "OK"

/-- One iteration of the loop of writeToLocal. When both cases of the select are ready,
pickDone tells which one is taken. -/
def writeToLocal (env : Env) (t : UdpTunnel) (pickDone : Bool) (writeErr : Option Error) :
    IterResult :=
  match t.ctx with
  | none =>
    { tunnel := t, trace := [],
      ctl := .fault "runtime error: invalid memory address or nil pointer dereference" }
  | some c =>
    match t.RemotePackets.recv with
    | none => { tunnel := t, trace := [], ctl := if c.done then .stop else .blocked }
    | some (chunk, ch) =>
      if c.done ∧ pickDone then { tunnel := t, trace := [], ctl := .stop }
      else writeToLocalChunk env { t with RemotePackets := ch } chunk writeErr

/-! ## Calls in sequence -/

/-- A call made on the tunnel by its owner. -/
inductive Call where
  | Run
  | Close (reason : Error)
  deriving DecidableEq, Repr

/-- One call. -/
def doCall (t : UdpTunnel) : Call → CallResult
  | .Run => Run t
  | .Close reason => Close t reason

/-- Calls in sequence, each on the tunnel the previous one left (a panicking call is
taken to be recovered by its caller): the tunnel at the end, the whole trace, and the
panic of each call. -/
def doCalls (t : UdpTunnel) : List Call → UdpTunnel × List Effect × List (Option String)
  | [] => (t, [], [])
  | c :: cs =>
    let r := doCall t c
    let rest := doCalls r.tunnel cs
    (rest.1, r.trace ++ rest.2.1, r.fault :: rest.2.2)

/-- Status after each call of a sequence, in order. -/
def statusAfterEach (t : UdpTunnel) : List Call → List TunnelStatus
  | [] => []
  | c :: cs => (doCall t c).tunnel.status :: statusAfterEach (doCall t c).tunnel cs

/-- Position of a status on the line Created, Proxying, Closed. -/
def TunnelStatus.rank : TunnelStatus → Nat
  | StatusCreated => 0
  | StatusProxying => 1
  | StatusClosed => 2

/-- A status history only moves forward. -/
def forwardOnly (l : List TunnelStatus) : Prop :=
  l.Chain' (fun a b => a.rank ≤ b.rank)

/-- In a sequence of calls, Run is never called on a tunnel whose status is Closed. -/
def RunOnlyWhileOpen (t : UdpTunnel) : List Call → Prop
  | [] => True
  | .Run :: cs => t.status ≠ StatusClosed ∧ RunOnlyWhileOpen (Run t).tunnel cs
  | .Close reason :: cs => RunOnlyWhileOpen (Close t reason).tunnel cs

/-- A tunnel on which Run was called and Close was not: context live, Once not fired,
status Proxying, sockets and queues open. -/
def Running (t : UdpTunnel) : Prop :=
  t.ctx = some { done := false } ∧ t.ctxCancel = .cancelCtx ∧ t.closeOne = false ∧
    t.status = StatusProxying ∧ t.socks5TcpConn.closed = false ∧
    t.socks5UdpListen.closed = false ∧ t.LocalPackets.closed = false ∧
    t.RemotePackets.closed = false

/-! ## The running tunnel: its loops interleaved -/

/-- A running tunnel with its three goroutines. Iterations of the loops are atomic and
interleave in any order. The reader parked in its send keeps the payload and the
receive error of the iteration it is in. A panic in any goroutine ends the process. -/
structure System where
  tunnel : UdpTunnel
  writeToLocalAlive : Bool
  readFromRemoteAlive : Bool
  writeToRemoteAlive : Bool
  parked : Option (Bytes × Option Error)
  trace : List Effect
  crashed : Bool

/-- What happens next in a running tunnel. -/
inductive Event where
  | stepWriteToLocal (pickDone : Bool) (writeErr : Option Error)
  | stepReadFromRemote (recvd : Bytes) (err : Option Error)
  | stepWriteToRemote (pickDone : Bool) (sendErr : Option Error)
  | localPacket (chunk : Bytes)
  | close (reason : Error)
  deriving DecidableEq, Repr

/-- The system right after Run. -/
def System.start (t : UdpTunnel) : System :=
  { tunnel := t, writeToLocalAlive := true, readFromRemoteAlive := true,
    writeToRemoteAlive := true, parked := none, trace := [], crashed := false }

/-- Whether a loop goes on after an iteration. -/
def Ctl.alive : Ctl → Bool
  | .next => true
  | .blocked => true
  | .stop => false
  | .fault _ => false

/-- Whether an iteration panicked. -/
def Ctl.isFault : Ctl → Bool
  | .fault _ => true
  | _ => false

/-- The payload readFromRemote is about to send for a datagram, if it gets that far. -/
def pendingSend (env : Env) (recvd : Bytes) : Bytes :=
  match env.ParseUDPRequest (recvd.take env.PktChannelSize) with
  | .ok udpReq => udpReq.Data
  | .error _ => []

/-- One event. The event localPacket is the stack handing a captured payload to
LocalPackets; it is dropped when the queue is closed or full. -/
def System.step (env : Env) (s : System) : Event → System
  | .stepWriteToLocal pickDone writeErr =>
    if s.crashed ∨ ¬ s.writeToLocalAlive then s
    else
      let r := writeToLocal env s.tunnel pickDone writeErr
      { s with tunnel := r.tunnel, trace := s.trace ++ r.trace,
               writeToLocalAlive := r.ctl.alive, crashed := r.ctl.isFault }
  | .stepReadFromRemote recvd err =>
    if s.crashed ∨ ¬ s.readFromRemoteAlive then s
    else
      match s.parked with
      | some (data, perr) =>
        let r := readFromRemoteSend s.tunnel [] data perr
        { s with tunnel := r.tunnel, trace := s.trace ++ r.trace,
                 readFromRemoteAlive := r.ctl.alive, crashed := r.ctl.isFault,
                 parked := if r.ctl = .blocked then some (data, perr) else none }
      | none =>
        let r := readFromRemote env s.tunnel recvd err
        { s with tunnel := r.tunnel, trace := s.trace ++ r.trace,
                 readFromRemoteAlive := r.ctl.alive, crashed := r.ctl.isFault,
                 parked := if r.ctl = .blocked then some (pendingSend env recvd, err) else none }
  | .stepWriteToRemote pickDone sendErr =>
    if s.crashed ∨ ¬ s.writeToRemoteAlive then s
    else
      let r := writeToRemote env s.tunnel pickDone sendErr
      { s with tunnel := r.tunnel, trace := s.trace ++ r.trace,
               writeToRemoteAlive := r.ctl.alive, crashed := r.ctl.isFault }
  | .localPacket chunk =>
    if s.crashed then s
    else
      match s.tunnel.LocalPackets.send chunk with
      | .sent ch => { s with tunnel := { s.tunnel with LocalPackets := ch } }
      | _ => s
  | .close reason =>
    if s.crashed then s
    else
      let r := Close s.tunnel reason
      { s with tunnel := r.tunnel, trace := s.trace ++ .CallClose reason :: r.trace,
               crashed := r.fault.isSome }

/-- Events in sequence. -/
def System.run (env : Env) (s : System) (evs : List Event) : System :=
  evs.foldl (System.step env) s

/-- Whether an effect is a write to the virtual interface. -/
def Effect.isIfceWrite : Effect → Bool
  | .IfceWrite _ _ => true
  | _ => false

/-- Whether an effect is a write to the virtual interface that returned no error. -/
def Effect.isDelivery : Effect → Bool
  | .IfceWrite _ none => true
  | _ => false

/-- Whether an effect is a call of Close. -/
def Effect.isCallClose : Effect → Bool
  | .CallClose _ => true
  | _ => false

/-! ## Auxiliary definitions for the statements -/

/-- Value of a digit string read after the value n. -/
def digitsValue : List Char → Nat → Nat
  | [], n => n
  | c :: cs, n => digitsValue cs (n * 10 + (c.toNat - '0'.toNat))

/-- Every character is a decimal digit. -/
def allDigits (ds : List Char) : Bool :=
  ds.all (fun c => decide ('0'.toNat ≤ c.toNat ∧ c.toNat ≤ '9'.toNat))

/-- The net.IP that stands for an address of the stack: the IPv4-mapped form of an IPv4
address (4 bytes, or 16 bytes IPv4-mapped), and nil for any other address. -/
def asIPv4 (a : Address) : IP :=
  match a.To4 with
  | [a0, a1, a2, a3] => IPv4 a0 a1 a2 a3
  | _ => []

/-- The ways setup can fail, in the order NewUdpTunnel meets them. -/
inductive SetupFailure where
  | dialError
  | listenError
  | writeRequestError
  | readReplyError
  | replyStatus
  deriving DecidableEq, Repr

/-- The failure path taken by setup, read off the results of the network calls; none
when every call succeeds and the reply reports success. -/
def setupFailure (net : SetupNet) (endpoint : TransportEndpointID) (app : App) :
    Option SetupFailure :=
  match net.Dial (selectProxy endpoint app) with
  | .error _ => some .dialError
  | .ok conn =>
    match net.ListenUDP { IP := conn.LocalAddr.IP, Port := 0, Zone := conn.LocalAddr.Zone } with
    | .error _ => some .listenError
    | .ok _ =>
      match net.WriteSocksRequest associateRequest with
      | some _ => some .writeRequestError
      | none =>
        match net.ReadSocksReply with
        | .error _ => some .readReplyError
        | .ok reply => if reply.Rep ≠ SocksSucceeded then some .replyStatus else none

/-- Whether an effect is a send on the relay socket. -/
def Effect.isWriteTo : Effect → Bool
  | .WriteTo _ _ _ => true
  | _ => false

/-- Whether an effect is a call of the packet synthesiser. -/
def Effect.isCreateDNSResponse : Effect → Bool
  | .CreateDNSResponse _ _ _ _ _ => true
  | _ => false

/-- Whether an effect is a store in the response cache. -/
def Effect.isDNSCacheStore : Effect → Bool
  | .DNSCacheStore _ => true
  | _ => false

/-- Whether an effect is a send on RemotePackets. -/
def Effect.isSendRemotePackets : Effect → Bool
  | .SendRemotePackets _ => true
  | _ => false

/-- The effects of the one execution of the body of Close, in order. -/
def teardown (port : Nat) : List Effect :=
  [.CtxCancel, .SetStatus StatusClosed, .TcpClose, .UdpClose, .DelUDPNat port,
    .CloseLocalPackets, .CloseRemotePackets]

/-- What Run establishes and every later step keeps: ctxCancel is set, and once the
Once has fired Status is Closed. -/
def Started (t : UdpTunnel) : Prop :=
  t.ctxCancel = .cancelCtx ∧ (t.closeOne = true → t.status = StatusClosed)

/-- Two tunnels that agree on ctxCancel, the Once and the status. -/
def SameCore (t u : UdpTunnel) : Prop :=
  u.ctxCancel = t.ctxCancel ∧ u.closeOne = t.closeOne ∧ u.status = t.status

/-- The tunnel u comes from t by queue operations, possibly followed by a Close. -/
def StepOf (t u : UdpTunnel) : Prop :=
  SameCore t u ∨ ∃ v reason, SameCore t v ∧ u = (Close v reason).tunnel

/-- Invariant of the running tunnel for one-shot delivery, on the tunnel, the trace so
far and whether the loop of writeToLocal is still going: at most one write to the
interface, none while the loop is going, and after a write without error Close was
called, Status is Closed and the loop is over. -/
def OneShot (t : UdpTunnel) (tr : List Effect) (alive : Bool) : Prop :=
  Started t ∧ (tr.filter Effect.isIfceWrite).length ≤ 1 ∧
    (alive = true → tr.filter Effect.isIfceWrite = []) ∧
    (tr.any Effect.isDelivery = true →
      tr.any Effect.isCallClose = true ∧ t.status = StatusClosed ∧ alive = false)

/-! ## A concrete flow: 10.0.0.2:5353 talking to 93.184.216.34:53 -/

/-- Endpoint of the flow as the stack hands it over: its local side is the remote
host of the flow. -/
def exEndpoint : TransportEndpointID :=
  { LocalPort := 53, LocalAddress := [93, 184, 216, 34], RemotePort := 5353,
    RemoteAddress := [10, 0, 0, 2] }

/-- Local side of the flow. -/
def exLocalAddr : FullAddress := { NIC := 1, Addr := [10, 0, 0, 2], Port := 5353 }

/-- Application without fake DNS, caching DNS answers relayed over SOCKS5. -/
def exApp : App :=
  { FakeDns := none,
    Cfg := { Dns := { DnsMode := "udp_relay_via_socks5" }, GetProxy := fun _ => "",
             UdpProxy := "127.0.0.1:1080" } }

/-- Lookup of a fake DNS table holding one record, for 93.184.216.34. -/
def exGetByIP (ip : IP) : Option DomainRecord :=
  if ip = IPv4 93 184 216 34 then some { Hostname := "example.com", Proxy := "B" } else none

/-- Application whose fake DNS table knows the remote host of the flow. -/
def exFakeApp : App :=
  { FakeDns := some { DnsTablePtr := { GetByIP := exGetByIP } },
    Cfg := { Dns := { DnsMode := "fake" }, GetProxy := fun _ => "10.1.1.1:1080",
             UdpProxy := "127.0.0.1:1080" } }

/-- Control connection returned by the dialer. -/
def exConn : SocksConn :=
  { LocalAddr := { IP := IPv4 127 0 0 1, Port := 40000, Zone := "" }, closed := false }

/-- A proxy that accepts the connection and answers the UDP-associate request with
status rep. -/
def exNet (rep : Nat) : SetupNet :=
  { Dial := fun _ => .ok exConn,
    ListenUDP := fun a => .ok { LocalAddr := { a with Port := 50000 }, closed := false },
    WriteSocksRequest := fun _ => none,
    ReadSocksReply := .ok { Rep := rep, HostType := SocksIPv4Host, BndHost := "127.0.0.1",
                            BndPort := 1081 } }

/-- A proxy whose local address cannot be bound for the relay socket. -/
def exNetNoBind : SetupNet :=
  { exNet 0 with ListenUDP := fun _ => .error "bind: address already in use" }

/-- Toy collaborators: a four-byte envelope header, a synthesiser that refuses nil
addresses, queues of eight packets, a cache. -/
def exEnv : Env :=
  { PktChannelSize := 8,
    CreateDNSResponse := fun src sp dst dp payload =>
      if src = [] ∨ dst = [] then none else some (src ++ sp :: dst ++ dp :: payload),
    PackUDPRequest := fun r => 0 :: 0 :: r.Frag :: r.HostType :: r.Data,
    ParseUDPRequest := fun b =>
      if b.length < 4 then .error "short packet"
      else .ok { Frag := 0, HostType := SocksIPv4Host, DstHost := "", DstPort := 0,
                 Data := b.drop 4 },
    DNSCache := true }

/-- The tunnel that setup returns for the flow through the accepting proxy. -/
def exCreated (app : App) : UdpTunnel :=
  { localEndpoint := exEndpoint
    socks5TcpConn := exConn
    socks5UdpListen :=
      { LocalAddr := { IP := IPv4 127 0 0 1, Port := 50000, Zone := "" }, closed := false }
    RemotePackets := Chan.make 8
    LocalPackets := Chan.make 8
    ctx := none
    ctxCancel := .nilFunc
    localAddr := exLocalAddr
    cmdUDPAssociateReply :=
      { Rep := 0, HostType := SocksIPv4Host, BndHost := "127.0.0.1", BndPort := 1081 }
    closeOne := false
    status := StatusCreated
    app := app }

/-- The same tunnel after Run. -/
def exRunning (app : App) : UdpTunnel := (Run (exCreated app)).tunnel

/-- The running tunnel with one payload waiting in a queue. -/
def exWithLocal (app : App) (chunk : Bytes) : UdpTunnel :=
  { exRunning app with LocalPackets := { buf := [chunk], cap := 8, closed := false } }

/-- The running tunnel with one payload waiting for the interface. -/
def exWithRemote (app : App) (chunk : Bytes) : UdpTunnel :=
  { exRunning app with RemotePackets := { buf := [chunk], cap := 8, closed := false } }

/-- The address 2001:db8::1, which is not IPv4. -/
def exV6Address : Address := [0x20, 0x01, 0x0d, 0xb8, 0, 0, 0, 0, 0, 0, 0, 0, 0, 0, 0, 1]

/-- The running tunnel of a flow whose remote host is 2001:db8::1, with one payload
waiting for the interface. -/
def exWithRemoteV6 (chunk : Bytes) : UdpTunnel :=
  { exWithRemote exApp chunk with
    localEndpoint := { exEndpoint with LocalAddress := exV6Address } }

/-- The running example tunnel whose queue RemotePackets is full: it holds
PktChannelSize payloads that writeToLocal has not taken yet. -/
def exFull : UdpTunnel :=
  { exRunning exApp with
    RemotePackets := { buf := List.replicate 8 [1], cap := 8, closed := false } }

/-- On the full queue: a parsable datagram carrying [9, 9] arrives, Close is called from
outside while the reader is parked in its send, then the reader is scheduled again. -/
def exRaceEvents : List Event :=
  [.stepReadFromRemote [0, 0, 0, 1, 9, 9] none, .close "x", .stepReadFromRemote [] none]

/-- A run of the example tunnel: two answers arrive from the proxy, the first is
delivered, then the loops are scheduled again and a third answer arrives. -/
def exEvents : List Event :=
  [.stepReadFromRemote [0, 0, 0, 1, 7] none, .stepReadFromRemote [0, 0, 0, 1, 8] none,
   .stepWriteToLocal false none, .stepWriteToLocal false none,
   .stepReadFromRemote [0, 0, 0, 1, 9] none, .stepWriteToLocal false none]

/-! ## Printing and parsing an IPv4 address -/

theorem digitsValue_ge (ds : List Char) (n : Nat) : n ≤ digitsValue ds n := by
  induction ds generalizing n with
  | nil => simp [digitsValue]
  | cons c cs ih =>
    simp only [digitsValue]
    exact le_trans (by omega) (ih _)

theorem dtoiLoop_digits (ds rest : List Char) (n i : Nat) (hd : allDigits ds = true)
    (hv : digitsValue ds n < big) (hr : rest = [] ∨ rest.head? = some '.') :
    dtoiLoop (ds ++ rest) n i = (digitsValue ds n, i + ds.length, true) := by
  induction ds generalizing n i with
  | nil =>
    rcases hr with rfl | hr
    · simp [dtoiLoop, digitsValue]
    · cases rest with
      | nil => simp at hr
      | cons c cs =>
        simp at hr
        subst hr
        simp [dtoiLoop, digitsValue]
  | cons c cs ih =>
    simp only [allDigits, List.all_cons, Bool.and_eq_true, decide_eq_true_eq] at hd
    simp only [digitsValue] at hv
    have hlt : n * 10 + (c.toNat - '0'.toNat) < big :=
      lt_of_le_of_lt (digitsValue_ge cs _) hv
    have hd2 : allDigits cs = true := hd.2
    rw [List.cons_append, dtoiLoop, if_pos hd.1]
    simp only [ge_iff_le]
    rw [if_neg (by omega), ih _ _ hd2 hv]
    simp only [List.length_cons, Nat.add_assoc, Nat.add_comm 1, digitsValue]

set_option maxRecDepth 100000 in
theorem toDigits_byte : ∀ n < 256, allDigits (Nat.toDigits 10 n) = true ∧
    digitsValue (Nat.toDigits 10 n) 0 = n ∧ 0 < (Nat.toDigits 10 n).length := by
  decide

theorem dtoi_byte (n : Nat) (hn : n < 256) (rest : List Char)
    (hr : rest = [] ∨ rest.head? = some '.') :
    dtoi (Nat.toDigits 10 n ++ rest) = (n, (Nat.toDigits 10 n).length, true) := by
  obtain ⟨h1, h2, h3⟩ := toDigits_byte n hn
  have hv : digitsValue (Nat.toDigits 10 n) 0 < big := by rw [h2]; unfold big; omega
  unfold dtoi
  rw [dtoiLoop_digits _ _ _ _ h1 hv hr, h2]
  simp only [Nat.zero_add]
  rw [if_neg (by omega)]

theorem find_sep_digits (ds rest : List Char) (hd : allDigits ds = true) :
    (ds ++ '.' :: rest).find? (fun c => c == '.' || c == ':') = some '.' := by
  induction ds with
  | nil => simp
  | cons c cs ih =>
    simp only [allDigits, List.all_cons, Bool.and_eq_true, decide_eq_true_eq] at hd
    have hc1 : c ≠ '.' := by
      intro h; subst h; exact absurd hd.1.1 (by decide)
    have hc2 : c ≠ ':' := by
      intro h; subst h; exact absurd hd.1.2 (by decide)
    rw [List.cons_append, List.find?_cons_of_neg _ (by simp [hc1, hc2])]
    exact ih hd.2

theorem parseIPv4Loop_first (fuel n : Nat) (hn : n < 256) (rest : List Char) (p : List Nat)
    (hr : rest = [] ∨ rest.head? = some '.') :
    parseIPv4Loop (fuel + 1) 0 (Nat.toDigits 10 n ++ rest) p =
      parseIPv4Loop fuel 1 rest (p ++ [n]) := by
  have l := (toDigits_byte n hn).2.2
  have hne : (Nat.toDigits 10 n ++ rest).length ≠ 0 := by
    rw [List.length_append]; omega
  rw [parseIPv4Loop, if_neg hne]
  simp only [gt_iff_lt, Nat.lt_irrefl, if_false, dtoi_byte n hn rest hr, List.drop_left]
  rw [if_neg (by simp; omega)]

theorem parseIPv4Loop_next (fuel i n : Nat) (hn : n < 256) (rest : List Char) (p : List Nat)
    (hr : rest = [] ∨ rest.head? = some '.') :
    parseIPv4Loop (fuel + 1) (i + 1) ('.' :: (Nat.toDigits 10 n ++ rest)) p =
      parseIPv4Loop fuel (i + 2) rest (p ++ [n]) := by
  rw [parseIPv4Loop, if_neg (by simp)]
  simp only [gt_iff_lt, Nat.zero_lt_succ, if_true, List.head?_cons, ne_eq, not_true_eq_false,
    if_false, List.drop_succ_cons, List.drop_zero, dtoi_byte n hn rest hr, List.drop_left]
  rw [if_neg (by simp; omega)]

theorem parseIPv4_dotted (a b c d : Nat) (ha : a < 256) (hb : b < 256) (hc : c < 256)
    (hd : d < 256) :
    parseIPv4 (Nat.toDigits 10 a ++ '.' :: Nat.toDigits 10 b ++ '.' :: Nat.toDigits 10 c
      ++ '.' :: Nat.toDigits 10 d) = IPv4 a b c d := by
  unfold parseIPv4
  have e : Nat.toDigits 10 a ++ '.' :: Nat.toDigits 10 b ++ '.' :: Nat.toDigits 10 c
      ++ '.' :: Nat.toDigits 10 d =
      Nat.toDigits 10 a ++ ('.' :: (Nat.toDigits 10 b ++ ('.' :: (Nat.toDigits 10 c
      ++ ('.' :: (Nat.toDigits 10 d ++ [])))))) := by simp
  rw [e, parseIPv4Loop_first 3 a ha ('.' :: (Nat.toDigits 10 b ++ ('.' :: (Nat.toDigits 10 c
      ++ ('.' :: (Nat.toDigits 10 d ++ [])))))) [] (Or.inr rfl),
    parseIPv4Loop_next 2 0 b hb ('.' :: (Nat.toDigits 10 c ++ ('.' :: (Nat.toDigits 10 d ++ []))))
      _ (Or.inr rfl),
    parseIPv4Loop_next 1 1 c hc ('.' :: (Nat.toDigits 10 d ++ [])) _ (Or.inr rfl),
    parseIPv4Loop_next 0 2 d hd [] _ (Or.inl rfl)]
  rfl

theorem ParseIP_String (a b c d : Nat) (ha : a < 256) (hb : b < 256) (hc : c < 256)
    (hd : d < 256) :
    ParseIP (Address.String [a, b, c, d]) = IPv4 a b c d := by
  unfold ParseIP Address.String
  simp only []
  have e : Nat.toDigits 10 a ++ '.' :: Nat.toDigits 10 b ++ '.' :: Nat.toDigits 10 c
      ++ '.' :: Nat.toDigits 10 d =
      Nat.toDigits 10 a ++ '.' :: (Nat.toDigits 10 b ++ '.' :: Nat.toDigits 10 c
      ++ '.' :: Nat.toDigits 10 d) := by simp
  rw [e, find_sep_digits _ _ (toDigits_byte a ha).1, ← e]
  exact parseIPv4_dotted a b c d ha hb hc hd

/-- The result of To4 has four bytes or none. -/
theorem To4_length (a : Address) : a.To4.length = 4 ∨ a.To4 = [] := by
  unfold Address.To4
  split
  · left; assumption
  · split
    · rename_i h
      left
      rw [List.length_drop, h.1]
    · right; rfl

/-- The empty address prints as the empty string, which does not parse. -/
theorem ParseIP_String_nil : ParseIP (Address.String []) = [] := by
  decide

/-- Parsing the printed 4-byte form of an IPv4 address gives the address back. -/
theorem ParseIP_To4_String (addr : Address) (a b c d : Nat) (h : addr.To4 = [a, b, c, d])
    (ha : a < 256) (hb : b < 256) (hc : c < 256) (hd : d < 256) :
    ParseIP addr.To4.String = IPv4 a b c d := by
  rw [h]
  exact ParseIP_String a b c d ha hb hc hd

/-- The bytes of the result of To4 are bytes of the address. -/
theorem To4_mem (a : Address) (b : Nat) (h : b ∈ a.To4) : b ∈ a := by
  unfold Address.To4 at h
  split at h
  · exact h
  · split at h
    · exact List.mem_of_mem_drop h
    · exact absurd h (List.not_mem_nil _)

/-- The address handed on by To4, String and ParseIP: the IPv4 form of an IPv4 address,
nil for any other address. -/
theorem ParseIP_To4_String_eq (a : Address) (hb : ∀ b ∈ a, b < 256) :
    ParseIP a.To4.String = asIPv4 a := by
  unfold asIPv4
  rcases To4_length a with h4 | h0
  · match h : a.To4, h4 with
    | [a0, a1, a2, a3], _ =>
      have hm : ∀ b ∈ [a0, a1, a2, a3], b < 256 := fun b hbm => hb b (To4_mem a b (h ▸ hbm))
      simp only []
      rw [← h]
      exact ParseIP_To4_String a a0 a1 a2 a3 h (hm a0 (by simp)) (hm a1 (by simp))
        (hm a2 (by simp)) (hm a3 (by simp))
  · rw [h0]
    exact ParseIP_String_nil

/-- An IPv4 address is handed on as itself. -/
theorem asIPv4_of_To4 (a : Address) (a0 a1 a2 a3 : Nat) (h : a.To4 = [a0, a1, a2, a3]) :
    asIPv4 a = IPv4 a0 a1 a2 a3 := by
  simp [asIPv4, h]

/-- An address that is not IPv4 is handed on as nil. -/
theorem asIPv4_of_not_IPv4 (a : Address) (h : a.To4 = []) : asIPv4 a = [] := by
  simp [asIPv4, h]

/-! ## Setup -/

/-- Setup returns a tunnel exactly when no failure path is taken. -/
theorem NewUdpTunnel_isSome_iff (env : Env) (net : SetupNet) (endpoint : TransportEndpointID)
    (localAddr : FullAddress) (app : App) :
    (NewUdpTunnel env net endpoint localAddr app).tunnel.isSome = true ↔
      setupFailure net endpoint app = none := by
  unfold NewUdpTunnel setupFailure
  cases hd : net.Dial (selectProxy endpoint app) with
  | error e => simp [hd]
  | ok conn =>
    simp only [hd]
    cases hl : net.ListenUDP { IP := conn.LocalAddr.IP, Port := 0, Zone := conn.LocalAddr.Zone } with
    | error e => simp [hl]
    | ok u =>
      simp only [hl]
      cases hw : net.WriteSocksRequest associateRequest with
      | some e => simp [hw]
      | none =>
        simp only [hw]
        cases hrd : net.ReadSocksReply with
        | error e => simp [hrd]
        | ok reply =>
          simp only [hrd]
          by_cases hr : reply.Rep = SocksSucceeded <;> simp [hr]

/-- The tunnel that setup returns: status Created, no context, Once not fired, sockets
and queues open. -/
theorem NewUdpTunnel_created (env : Env) (net : SetupNet) (endpoint : TransportEndpointID)
    (localAddr : FullAddress) (app : App) (t : UdpTunnel)
    (h : (NewUdpTunnel env net endpoint localAddr app).tunnel = some t) :
    t.status = StatusCreated ∧ t.ctx = none ∧ t.ctxCancel = .nilFunc ∧ t.closeOne = false ∧
      t.LocalPackets.closed = false ∧ t.RemotePackets.closed = false ∧
      t.localEndpoint = endpoint ∧ t.localAddr = localAddr := by
  unfold NewUdpTunnel at h
  cases hd : net.Dial (selectProxy endpoint app) with
  | error e => simp [hd] at h
  | ok conn =>
    simp only [hd] at h
    cases hl : net.ListenUDP { IP := conn.LocalAddr.IP, Port := 0, Zone := conn.LocalAddr.Zone } with
    | error e => simp [hl] at h
    | ok u =>
      simp only [hl] at h
      cases hw : net.WriteSocksRequest associateRequest with
      | some e => simp [hw] at h
      | none =>
        simp only [hw] at h
        cases hrd : net.ReadSocksReply with
        | error e => simp [hrd] at h
        | ok reply =>
          simp only [hrd] at h
          by_cases hr : reply.Rep = SocksSucceeded
          · simp only [hr, ne_eq, not_true_eq_false, if_false, Option.some.injEq] at h
            subst h
            simp [Chan.make]
          · simp [hr] at h

/-- A reply with a non-success status makes setup return a nil error, whatever the
inputs. -/
theorem NewUdpTunnel_replyStatus_err (env : Env) (net : SetupNet)
    (endpoint : TransportEndpointID) (localAddr : FullAddress) (app : App)
    (h : setupFailure net endpoint app = some .replyStatus) :
    (NewUdpTunnel env net endpoint localAddr app).err = none := by
  unfold setupFailure at h
  unfold NewUdpTunnel
  cases hd : net.Dial (selectProxy endpoint app) with
  | error e => simp [hd] at h
  | ok conn =>
    simp only [hd] at h ⊢
    cases hl : net.ListenUDP { IP := conn.LocalAddr.IP, Port := 0, Zone := conn.LocalAddr.Zone } with
    | error e => simp [hl] at h
    | ok u =>
      simp only [hl] at h ⊢
      cases hw : net.WriteSocksRequest associateRequest with
      | some e => simp [hw] at h
      | none =>
        simp only [hw] at h ⊢
        cases hrd : net.ReadSocksReply with
        | error e => simp [hrd] at h
        | ok reply =>
          simp only [hrd] at h ⊢
          by_cases hr : reply.Rep = SocksSucceeded <;> simp [hr] at h ⊢

/-- C1 (code defect): for the flow 10.0.0.2:5353 to 93.184.216.34:53, when the proxy
answers the UDP-associate request with status 1 (general failure) and no I/O error
occurs, NewUdpTunnel returns a nil tunnel together with a nil error: the failure is
not reported through the error result. -/
theorem NewUdpTunnel_rejected_reply_returns_nil_error :
    (NewUdpTunnel exEnv (exNet 1) exEndpoint exLocalAddr exApp).tunnel.isNone = true ∧
    (NewUdpTunnel exEnv (exNet 1) exEndpoint exLocalAddr exApp).err = none ∧
    setupFailure (exNet 1) exEndpoint exApp = some .replyStatus := by
  decide

/-- C2: on every failure path of NewUdpTunnel (dial error, ListenUDP error,
WriteSocksRequest error, ReadSocksReply error, non-success reply status) no tunnel is
returned, the control connection is closed exactly once when the dial had succeeded
(and never otherwise), and the relay socket is closed exactly once when ListenUDP had
succeeded (and never otherwise). -/
theorem NewUdpTunnel_failure_closes_sockets (env : Env) (net : SetupNet)
    (endpoint : TransportEndpointID) (localAddr : FullAddress) (app : App) (f : SetupFailure)
    (h : setupFailure net endpoint app = some f) :
    (NewUdpTunnel env net endpoint localAddr app).tunnel.isNone = true ∧
    (NewUdpTunnel env net endpoint localAddr app).trace.count .TcpClose =
      (if f = .dialError then 0 else 1) ∧
    (NewUdpTunnel env net endpoint localAddr app).trace.count .UdpClose =
      (if f = .dialError ∨ f = .listenError then 0 else 1) := by
  unfold setupFailure at h
  unfold NewUdpTunnel
  cases hd : net.Dial (selectProxy endpoint app) with
  | error e =>
    simp only [hd, Option.some.injEq] at h
    subst h
    simp [hd, List.count_cons]
  | ok conn =>
    simp only [hd] at h ⊢
    cases hl : net.ListenUDP { IP := conn.LocalAddr.IP, Port := 0, Zone := conn.LocalAddr.Zone } with
    | error e =>
      simp only [hl, Option.some.injEq] at h
      subst h
      simp [hl, List.count_cons]
    | ok u =>
      simp only [hl] at h ⊢
      cases hw : net.WriteSocksRequest associateRequest with
      | some e =>
        simp only [hw, Option.some.injEq] at h
        subst h
        simp [hw, List.count_cons]
      | none =>
        simp only [hw] at h ⊢
        cases hrd : net.ReadSocksReply with
        | error e =>
          simp only [hrd, Option.some.injEq] at h
          subst h
          simp [hrd, List.count_cons]
        | ok reply =>
          simp only [hrd] at h ⊢
          by_cases hr : reply.Rep = SocksSucceeded
          · simp [hr] at h
          · simp only [hr, ne_eq, not_false_eq_true, if_true, Option.some.injEq] at h
            subst h
            simp [hr, List.count_cons]

/-- Witness for C2: the relay socket cannot be bound; the control connection, already
open, is closed once and no relay socket is closed. -/
theorem NewUdpTunnel_failure_closes_sockets_witness :
    setupFailure exNetNoBind exEndpoint exApp = some .listenError ∧
    (NewUdpTunnel exEnv exNetNoBind exEndpoint exLocalAddr exApp).tunnel.isNone = true ∧
    (NewUdpTunnel exEnv exNetNoBind exEndpoint exLocalAddr exApp).trace.count .TcpClose = 1 ∧
    (NewUdpTunnel exEnv exNetNoBind exEndpoint exLocalAddr exApp).trace.count .UdpClose = 0 :=
  ⟨by decide,
   NewUdpTunnel_failure_closes_sockets exEnv exNetNoBind exEndpoint exLocalAddr exApp
     .listenError (by decide)⟩

/-! ## Close and Run -/

/-- Once the Once has fired, Close does nothing. -/
theorem Close_fired (t : UdpTunnel) (reason : Error) (h : t.closeOne = true) :
    Close t reason = { tunnel := t, trace := [], fault := none } := by
  simp [Close, h]

/-- Close on a tunnel whose Once has not fired and whose context was made by Run, with
both queues open: the whole teardown, no panic. -/
theorem Close_first (t : UdpTunnel) (reason : Error) (h1 : t.closeOne = false)
    (h2 : t.ctxCancel = .cancelCtx) (h3 : t.LocalPackets.closed = false)
    (h4 : t.RemotePackets.closed = false) :
    (Close t reason).trace = teardown t.localAddr.Port ∧ (Close t reason).fault = none ∧
    (Close t reason).tunnel.closeOne = true ∧
    (Close t reason).tunnel.status = StatusClosed ∧
    (Close t reason).tunnel.ctx = t.ctx.map (fun _ => { done := true }) ∧
    (Close t reason).tunnel.socks5TcpConn.closed = true ∧
    (Close t reason).tunnel.socks5UdpListen.closed = true ∧
    (Close t reason).tunnel.LocalPackets.closed = true ∧
    (Close t reason).tunnel.RemotePackets.closed = true ∧
    (Close t reason).tunnel.LocalPackets.buf = t.LocalPackets.buf ∧
    (Close t reason).tunnel.RemotePackets.buf = t.RemotePackets.buf := by
  simp [Close, h1, h2, h3, h4, SetStatus, teardown]

/-- Close never moves the status backward. -/
theorem Close_status_rank (t : UdpTunnel) (reason : Error) :
    t.status.rank ≤ (Close t reason).tunnel.status.rank := by
  have hmax : ∀ s : TunnelStatus, s.rank ≤ StatusClosed.rank := by
    intro s; cases s <;> decide
  have hm := hmax t.status
  by_cases h1 : t.closeOne = true
  · simp [Close, h1]
  · cases h2 : t.ctxCancel with
    | nilFunc => simp [Close, h1, h2]
    | cancelCtx =>
      by_cases h3 : t.LocalPackets.closed = true
      · simpa [Close, h1, h2, h3, SetStatus] using hm
      · by_cases h4 : t.RemotePackets.closed = true
        · simpa [Close, h1, h2, h3, h4, SetStatus] using hm
        · simpa [Close, h1, h2, h3, h4, SetStatus] using hm

/-- Close leaves a Closed status Closed. -/
theorem Close_keeps_closed (t : UdpTunnel) (reason : Error) (h : t.status = StatusClosed) :
    (Close t reason).tunnel.status = StatusClosed := by
  have hr := Close_status_rank t reason
  rw [h] at hr
  revert hr
  cases (Close t reason).tunnel.status <;> simp [TunnelStatus.rank]

/-- Calls of Close after the Once has fired: nothing happens. -/
theorem doCalls_Close_fired (t : UdpTunnel) (h : t.closeOne = true) (rs : List Error) :
    doCalls t (rs.map Call.Close) = (t, [], List.replicate rs.length none) := by
  induction rs with
  | nil => rfl
  | cons r rs ih =>
    simp only [List.map_cons, doCalls, doCall, Close_fired t r h, ih, List.append_nil,
      List.length_cons, List.replicate_succ]

/-- The status history of a sequence of calls only moves forward when Run is never
called on a Closed tunnel. -/
theorem forwardOnly_of_RunOnlyWhileOpen (t : UdpTunnel) (calls : List Call)
    (h : RunOnlyWhileOpen t calls) : forwardOnly (t.status :: statusAfterEach t calls) := by
  induction calls generalizing t with
  | nil => simp [forwardOnly, statusAfterEach]
  | cons c cs ih =>
    cases c with
    | Run =>
      have hp : (Run t).tunnel.status = StatusProxying := rfl
      have h2 := ih (Run t).tunnel h.2
      unfold forwardOnly at h2 ⊢
      simp only [statusAfterEach, doCall]
      refine List.Chain'.cons ?_ h2
      rw [hp]
      have h1 := h.1
      revert h1
      cases t.status <;> simp [TunnelStatus.rank]
    | Close reason =>
      have h2 := ih (Close t reason).tunnel h
      unfold forwardOnly at h2 ⊢
      simp only [statusAfterEach, doCall]
      exact List.Chain'.cons (Close_status_rank t reason) h2

/-- C6: for every running tunnel and every N at least 1, N successive calls to Close,
with any reasons, produce exactly the effects: cancel the context, set Status to Closed,
close the control connection, close the relay socket, remove the NAT entry keyed by
localAddr.Port, close LocalPackets, close RemotePackets, each once and in this order;
no call panics, and the calls after the first change nothing: the tunnel at the end is
the tunnel the first call left, which is Closed with sockets and queues closed. -/
theorem Close_exactly_once (t : UdpTunnel) (r0 : Error) (rs : List Error) (h : Running t) :
    (doCalls t ((r0 :: rs).map Call.Close)).2.1 =
      [.CtxCancel, .SetStatus StatusClosed, .TcpClose, .UdpClose, .DelUDPNat t.localAddr.Port,
        .CloseLocalPackets, .CloseRemotePackets] ∧
    (doCalls t ((r0 :: rs).map Call.Close)).2.2 = List.replicate (rs.length + 1) none ∧
    (doCalls t ((r0 :: rs).map Call.Close)).1 = (Close t r0).tunnel ∧
    (∀ r, Close (Close t r0).tunnel r =
      { tunnel := (Close t r0).tunnel, trace := [], fault := none }) ∧
    (Close t r0).tunnel.status = StatusClosed ∧
    (Close t r0).tunnel.ctx = some { done := true } ∧
    (Close t r0).tunnel.socks5TcpConn.closed = true ∧
    (Close t r0).tunnel.socks5UdpListen.closed = true ∧
    (Close t r0).tunnel.LocalPackets.closed = true ∧
    (Close t r0).tunnel.RemotePackets.closed = true := by
  obtain ⟨hctx, hcancel, hone, _, _, _, hl, hr⟩ := h
  obtain ⟨c1, c2, c3, c4, c5, c6, c7, c8, c9, _, _⟩ := Close_first t r0 hone hcancel hl hr
  have hrest := doCalls_Close_fired (Close t r0).tunnel c3 rs
  refine ⟨?_, ?_, ?_, fun r => Close_fired _ r c3, c4, ?_, c6, c7, c8, c9⟩
  · simp only [List.map_cons, doCalls, doCall, hrest, c1, List.append_nil, teardown]
  · simp only [List.map_cons, doCalls, doCall, hrest, c2, List.replicate_succ]
  · simp only [List.map_cons, doCalls, doCall, hrest]
  · rw [c5, hctx]; rfl

/-- Witness for C6: three calls of Close on the running example tunnel. -/
theorem Close_exactly_once_witness :
    Running (exRunning exApp) ∧
    (doCalls (exRunning exApp) [.Close "OK", .Close "EOF", .Close "again"]).2.1 =
      [.CtxCancel, .SetStatus StatusClosed, .TcpClose, .UdpClose, .DelUDPNat 5353,
        .CloseLocalPackets, .CloseRemotePackets] ∧
    (doCalls (exRunning exApp) [.Close "OK", .Close "EOF", .Close "again"]).2.2 =
      [none, none, none] :=
  ⟨by simp [Running, exRunning, exCreated, Run, SetStatus, Chan.make, exConn],
   (Close_exactly_once (exRunning exApp) "OK" ["EOF", "again"]
      (by simp [Running, exRunning, exCreated, Run, SetStatus, Chan.make, exConn])).1,
   (Close_exactly_once (exRunning exApp) "OK" ["EOF", "again"]
      (by simp [Running, exRunning, exCreated, Run, SetStatus, Chan.make, exConn])).2.1⟩

/-- C7, as stated, fails: on the tunnel that setup returns for the example flow, the
calls Run, Close, Run take Status through Created, Proxying, Closed, Proxying; the last
Run moves it back from Closed. -/
theorem Run_after_Close_reopens_status :
    (NewUdpTunnel exEnv (exNet 0) exEndpoint exLocalAddr exApp).tunnel.map
        (fun t => t.status :: statusAfterEach t [.Run, .Close "OK", .Run]) =
      some [StatusCreated, StatusProxying, StatusClosed, StatusProxying] ∧
    ¬ forwardOnly [StatusCreated, StatusProxying, StatusClosed, StatusProxying] := by
  refine ⟨by decide, ?_⟩
  simp [forwardOnly, TunnelStatus.rank]

/-- C7, amended: for a tunnel obtained from a successful NewUdpTunnel and every
sequence of calls to Run and Close in which Run is never called while Status is Closed,
Status only moves forward along Created, Proxying, Closed and never back; Close never
moves Status backward on any tunnel, and once Status is Closed no call of Close makes
it anything other than Closed. -/
theorem status_forward_unless_Run_when_Closed (env : Env) (net : SetupNet)
    (endpoint : TransportEndpointID) (localAddr : FullAddress) (app : App) (t : UdpTunnel)
    (calls : List Call)
    (h : (NewUdpTunnel env net endpoint localAddr app).tunnel = some t)
    (hrun : RunOnlyWhileOpen t calls) :
    forwardOnly (StatusCreated :: statusAfterEach t calls) ∧
    (∀ (u : UdpTunnel) (r : Error), u.status.rank ≤ (Close u r).tunnel.status.rank) ∧
    (∀ (u : UdpTunnel) (r : Error), u.status = StatusClosed →
      (Close u r).tunnel.status = StatusClosed) := by
  have hs := (NewUdpTunnel_created env net endpoint localAddr app t h).1
  have hf := forwardOnly_of_RunOnlyWhileOpen t calls hrun
  rw [hs] at hf
  exact ⟨hf, Close_status_rank, Close_keeps_closed⟩

/-- Witness for C7 amended: Run, Close, Close on the tunnel of the example flow. -/
theorem status_forward_unless_Run_when_Closed_witness :
    (NewUdpTunnel exEnv (exNet 0) exEndpoint exLocalAddr exApp).tunnel = some (exCreated exApp) ∧
    RunOnlyWhileOpen (exCreated exApp) [.Run, .Close "OK", .Close "EOF"] ∧
    forwardOnly (StatusCreated ::
      statusAfterEach (exCreated exApp) [.Run, .Close "OK", .Close "EOF"]) ∧
    statusAfterEach (exCreated exApp) [.Run, .Close "OK", .Close "EOF"] =
      [StatusProxying, StatusClosed, StatusClosed] :=
  ⟨rfl, ⟨by decide, trivial⟩,
   (status_forward_unless_Run_when_Closed exEnv (exNet 0) exEndpoint exLocalAddr exApp
      (exCreated exApp) [.Run, .Close "OK", .Close "EOF"] rfl ⟨by decide, trivial⟩).1,
   by decide⟩

/-- Close before Run panics on the nil ctxCancel and releases nothing, on every tunnel
that setup returns. -/
theorem Close_created_panics (env : Env) (net : SetupNet) (endpoint : TransportEndpointID)
    (localAddr : FullAddress) (app : App) (t : UdpTunnel) (reason : Error)
    (h : (NewUdpTunnel env net endpoint localAddr app).tunnel = some t) :
    (Close t reason).fault = some "runtime error: invalid memory address or nil pointer dereference" ∧
    (Close t reason).trace = [] ∧
    (Close t reason).tunnel = { t with closeOne := true } := by
  obtain ⟨_, _, h3, h4, _⟩ := NewUdpTunnel_created env net endpoint localAddr app t h
  simp [Close, h3, h4]

/-- C8 (code defect): on the tunnel that setup returns for the example flow, a call of
Close before any Run panics (ctxCancel is still nil), performs no effect, leaves Status
Created and the control connection, the relay socket and both queues open; the Once
has fired all the same, so that a second Close does nothing either and Status stays
Created. -/
theorem Close_before_Run_panics_and_releases_nothing :
    (NewUdpTunnel exEnv (exNet 0) exEndpoint exLocalAddr exApp).tunnel = some (exCreated exApp) ∧
    (Close (exCreated exApp) "stop").fault =
      some "runtime error: invalid memory address or nil pointer dereference" ∧
    (Close (exCreated exApp) "stop").trace = [] ∧
    (Close (exCreated exApp) "stop").tunnel.status = StatusCreated ∧
    (Close (exCreated exApp) "stop").tunnel.socks5TcpConn.closed = false ∧
    (Close (exCreated exApp) "stop").tunnel.socks5UdpListen.closed = false ∧
    (Close (exCreated exApp) "stop").tunnel.LocalPackets.closed = false ∧
    (Close (exCreated exApp) "stop").tunnel.RemotePackets.closed = false ∧
    (Close (Close (exCreated exApp) "stop").tunnel "again").trace = [] ∧
    (Close (Close (exCreated exApp) "stop").tunnel "again").tunnel.status = StatusCreated := by
  refine ⟨rfl, ?_, ?_, ?_, ?_, ?_, ?_, ?_, ?_, ?_⟩ <;> decide

/-! ## The loops -/

/-- Dotted decimal, spelled out. -/
theorem String_dotted (a b c d : Nat) :
    Address.String [a, b, c, d] =
      toString a ++ "." ++ toString b ++ "." ++ toString c ++ "." ++ toString d := by
  apply String.ext
  simp [Address.String, String.data_append, toString, Nat.repr, List.asString]

/-- Whatever Close does is an initial part of the teardown. -/
theorem Close_trace_initial (t : UdpTunnel) (reason : Error) :
    (Close t reason).trace <+: teardown t.localAddr.Port := by
  by_cases h1 : t.closeOne = true
  · simp [Close, h1]
  · cases h2 : t.ctxCancel with
    | nilFunc => simp [Close, h1, h2]
    | cancelCtx =>
      by_cases h3 : t.LocalPackets.closed = true
      · simp only [Close, h1, h2, h3, SetStatus, teardown, if_true, if_false, Bool.false_eq_true]
        exact ⟨[.CloseLocalPackets, .CloseRemotePackets], rfl⟩
      · by_cases h4 : t.RemotePackets.closed = true
        · simp only [Close, h1, h2, h3, h4, SetStatus, teardown, if_true, if_false,
            Bool.false_eq_true]
          exact ⟨[.CloseRemotePackets], rfl⟩
        · simp only [Close, h1, h2, h3, h4, SetStatus, teardown, if_false, Bool.false_eq_true]
          exact ⟨[], rfl⟩

/-- Close makes no call of a kind that the teardown does not contain. -/
theorem Close_trace_filter (t : UdpTunnel) (reason : Error) (p : Effect → Bool)
    (hp : ∀ port, (teardown port).filter p = []) : (Close t reason).trace.filter p = [] := by
  have h := (Close_trace_initial t reason).filter p
  rw [hp] at h
  exact List.prefix_nil.mp h

/-- Close writes nothing to the interface. -/
theorem Close_no_IfceWrite (t : UdpTunnel) (reason : Error) :
    (Close t reason).trace.filter Effect.isIfceWrite = [] :=
  Close_trace_filter t reason _ (fun _ => rfl)

/-- Close does not call the synthesiser. -/
theorem Close_no_CreateDNSResponse (t : UdpTunnel) (reason : Error) :
    (Close t reason).trace.filter Effect.isCreateDNSResponse = [] :=
  Close_trace_filter t reason _ (fun _ => rfl)

/-- Close stores nothing in the cache. -/
theorem Close_no_DNSCacheStore (t : UdpTunnel) (reason : Error) :
    (Close t reason).trace.filter Effect.isDNSCacheStore = [] :=
  Close_trace_filter t reason _ (fun _ => rfl)

/-- Close does not call Close. -/
theorem Close_no_CallClose (t : UdpTunnel) (reason : Error) :
    (Close t reason).trace.filter Effect.isCallClose = [] :=
  Close_trace_filter t reason _ (fun _ => rfl)

/-- Close sends nothing on the relay socket. -/
theorem Close_no_WriteTo (t : UdpTunnel) (reason : Error) :
    (Close t reason).trace.filter Effect.isWriteTo = [] :=
  Close_trace_filter t reason _ (fun _ => rfl)

/-- Close sends nothing on RemotePackets. -/
theorem Close_no_SendRemotePackets (t : UdpTunnel) (reason : Error) :
    (Close t reason).trace.filter Effect.isSendRemotePackets = [] :=
  Close_trace_filter t reason _ (fun _ => rfl)

/-- Close changes neither the content of the queues nor ctxCancel. -/
theorem Close_keeps (t : UdpTunnel) (reason : Error) :
    (Close t reason).tunnel.RemotePackets.buf = t.RemotePackets.buf ∧
    (Close t reason).tunnel.LocalPackets.buf = t.LocalPackets.buf ∧
    (Close t reason).tunnel.ctxCancel = t.ctxCancel := by
  by_cases h1 : t.closeOne = true
  · simp [Close, h1]
  · cases h2 : t.ctxCancel with
    | nilFunc => simp [Close, h1, h2]
    | cancelCtx =>
      by_cases h3 : t.LocalPackets.closed = true
      · simp [Close, h1, h2, h3, SetStatus]
      · by_cases h4 : t.RemotePackets.closed = true
        · simp [Close, h1, h2, h3, h4, SetStatus]
        · simp [Close, h1, h2, h3, h4, SetStatus]

/-- After Close the Once has fired. -/
theorem Close_closeOne (t : UdpTunnel) (reason : Error) :
    (Close t reason).tunnel.closeOne = true := by
  by_cases h1 : t.closeOne = true
  · simp [Close, h1]
  · cases h2 : t.ctxCancel with
    | nilFunc => simp [Close, h1, h2]
    | cancelCtx =>
      by_cases h3 : t.LocalPackets.closed = true
      · simp [Close, h1, h2, h3, SetStatus]
      · by_cases h4 : t.RemotePackets.closed = true
        · simp [Close, h1, h2, h3, h4, SetStatus]
        · simp [Close, h1, h2, h3, h4, SetStatus]

/-- Close on a started tunnel whose Once has not fired sets the status to Closed, even
if closing a queue then panics. -/
theorem Close_sets_closed (t : UdpTunnel) (reason : Error) (h1 : t.closeOne = false)
    (h2 : t.ctxCancel = .cancelCtx) : (Close t reason).tunnel.status = StatusClosed := by
  by_cases h3 : t.LocalPackets.closed = true
  · simp [Close, h1, h2, h3, SetStatus]
  · by_cases h4 : t.RemotePackets.closed = true
    · simp [Close, h1, h2, h3, h4, SetStatus]
    · simp [Close, h1, h2, h3, h4, SetStatus]

/-- Leaving a loop through Close: the trace, the tunnel, and the loop is over. -/
theorem closeAndStop_spec (t : UdpTunnel) (pre : List Effect) (reason : Error) :
    (closeAndStop t pre reason).trace = pre ++ .CallClose reason :: (Close t reason).trace ∧
    (closeAndStop t pre reason).tunnel = (Close t reason).tunnel ∧
    (closeAndStop t pre reason).ctl.alive = false ∧
    ((Close t reason).fault = none → (closeAndStop t pre reason).ctl = .stop) := by
  refine ⟨rfl, rfl, ?_, ?_⟩
  · unfold closeAndStop
    simp only []
    cases (Close t reason).fault <;> rfl
  · intro h
    unfold closeAndStop
    simp only [h]

/-- The request does not depend on the queues. -/
theorem writeToRemoteRequest_queue (t : UdpTunnel) (ch : Chan) (chunk : Bytes) :
    writeToRemoteRequest { t with LocalPackets := ch } chunk = writeToRemoteRequest t chunk := rfl

/-- C3: for every payload chunk that writeToRemote takes from LocalPackets, with the
remote address of the flow the IPv4 address a0.a1.a2.a3, exactly one datagram is sent on
the relay socket, to the address of the associate reply, and it is the packed form of a
UDPRequest with Frag 0, DstPort the remote port of the flow and Data the chunk
unchanged; if FakeDns is configured and its table has a record for the address then
HostType is SocksDomainHost and DstHost the hostname of the record; otherwise (no
FakeDns, or no record) HostType is SocksIPv4Host and DstHost the dotted string of the
address. -/
theorem writeToRemote_request (env : Env) (t : UdpTunnel) (c : Context) (chunk : Bytes)
    (ch : Chan) (pickDone : Bool) (sendErr : Option Error) (a0 a1 a2 a3 : Nat)
    (hctx : t.ctx = some c) (hrecv : t.LocalPackets.recv = some (chunk, ch))
    (hsel : ¬ (c.done = true ∧ pickDone = true))
    (haddr : t.localEndpoint.LocalAddress.To4 = [a0, a1, a2, a3])
    (h0 : a0 < 256) (h1 : a1 < 256) (h2 : a2 < 256) (h3 : a3 < 256) :
    (writeToRemote env t pickDone sendErr).trace.filter Effect.isWriteTo =
      [.WriteTo (env.PackUDPRequest (writeToRemoteRequest t chunk))
        t.cmdUDPAssociateReply.BndHost t.cmdUDPAssociateReply.BndPort] ∧
    (writeToRemoteRequest t chunk).Frag = 0 ∧
    (writeToRemoteRequest t chunk).DstPort = t.localEndpoint.LocalPort ∧
    (writeToRemoteRequest t chunk).Data = chunk ∧
    (∀ fd record, t.app.FakeDns = some fd →
      fd.DnsTablePtr.GetByIP (IPv4 a0 a1 a2 a3) = some record →
      (writeToRemoteRequest t chunk).HostType = SocksDomainHost ∧
      (writeToRemoteRequest t chunk).DstHost = record.Hostname) ∧
    ((t.app.FakeDns = none ∨
        ∃ fd, t.app.FakeDns = some fd ∧ fd.DnsTablePtr.GetByIP (IPv4 a0 a1 a2 a3) = none) →
      (writeToRemoteRequest t chunk).HostType = SocksIPv4Host ∧
      (writeToRemoteRequest t chunk).DstHost =
        toString a0 ++ "." ++ toString a1 ++ "." ++ toString a2 ++ "." ++ toString a3) := by
  have hip := ParseIP_To4_String _ a0 a1 a2 a3 haddr h0 h1 h2 h3
  refine ⟨?_, rfl, rfl, rfl, ?_, ?_⟩
  · have hsel2 : ¬ (c.done = true ∧ pickDone = true) := hsel
    simp only [writeToRemote, hctx, hrecv, hsel2, if_false, writeToRemoteChunk,
      writeToRemoteRequest_queue]
    cases sendErr with
    | none =>
      simp [Effect.isWriteTo]
      rfl
    | some err =>
      simp only [(closeAndStop_spec _ _ _).1, List.filter_append, List.filter_cons,
        Close_no_WriteTo]
      simp [Effect.isWriteTo]
      rfl
  · intro fd record hfd hrec
    simp only [writeToRemoteRequest, hfd, hip, hrec, and_self]
  · rintro (hnone | ⟨fd, hfd, hrec⟩)
    · simp only [writeToRemoteRequest, hnone, true_and]
      rw [haddr, String_dotted]
    · simp only [writeToRemoteRequest, hfd, hip, hrec, true_and]
      rw [haddr, String_dotted]

/-- Witness for C3: a payload for 93.184.216.34:53, known to the fake DNS table as
example.com. -/
theorem writeToRemote_request_witness :
    (writeToRemote exEnv (exWithLocal exFakeApp [1, 2, 3]) false none).trace.filter
        Effect.isWriteTo =
      [.WriteTo (exEnv.PackUDPRequest (writeToRemoteRequest (exWithLocal exFakeApp [1, 2, 3])
        [1, 2, 3])) "127.0.0.1" 1081] ∧
    writeToRemoteRequest (exWithLocal exFakeApp [1, 2, 3]) [1, 2, 3] =
      { Frag := 0, HostType := SocksDomainHost, DstHost := "example.com", DstPort := 53,
        Data := [1, 2, 3] } ∧
    writeToRemoteRequest (exWithLocal exApp [1, 2, 3]) [1, 2, 3] =
      { Frag := 0, HostType := SocksIPv4Host, DstHost := "93.184.216.34", DstPort := 53,
        Data := [1, 2, 3] } :=
  ⟨(writeToRemote_request exEnv (exWithLocal exFakeApp [1, 2, 3]) { done := false } [1, 2, 3]
      { buf := [], cap := 8, closed := false } false none 93 184 216 34 rfl rfl (by decide) rfl
      (by decide) (by decide) (by decide) (by decide)).1,
   by decide, by decide⟩

/-- An iteration of writeToLocal that takes a chunk runs the body on it. -/
theorem writeToLocal_recv (env : Env) (t : UdpTunnel) (c : Context) (chunk : Bytes) (ch : Chan)
    (pickDone : Bool) (writeErr : Option Error) (hctx : t.ctx = some c)
    (hrecv : t.RemotePackets.recv = some (chunk, ch))
    (hsel : ¬ (c.done = true ∧ pickDone = true)) :
    writeToLocal env t pickDone writeErr =
      writeToLocalChunk env { t with RemotePackets := ch } chunk writeErr := by
  simp only [writeToLocal, hctx, hrecv, hsel, if_false]

/-- The calls made by the body of writeToLocal, case by case. -/
theorem writeToLocalChunk_trace (env : Env) (t : UdpTunnel) (chunk : Bytes)
    (writeErr : Option Error) :
    (writeToLocalChunk env t chunk writeErr).trace =
      .CreateDNSResponse (ParseIP t.localEndpoint.LocalAddress.To4.String)
          t.localEndpoint.LocalPort (ParseIP t.localAddr.Addr.To4.String) t.localAddr.Port chunk ::
        (match writeToLocalPacket env t chunk, writeErr with
          | none, _ =>
            .CallClose "pack ip packet return nil" :: (Close t "pack ip packet return nil").trace
          | some pkt, some err => .IfceWrite pkt (some err) :: .CallClose err :: (Close t err).trace
          | some pkt, none =>
            .IfceWrite pkt none ::
              ((if t.app.Cfg.Dns.DnsMode = "udp_relay_via_socks5" ∧ env.DNSCache = true then
                  [.DNSCacheStore chunk] else []) ++ .CallClose "OK" :: (Close t "OK").trace)) := by
  unfold writeToLocalChunk
  cases hp : writeToLocalPacket env t chunk with
  | none => simp [closeAndStop]
  | some pkt =>
    cases writeErr with
    | some err => simp [closeAndStop]
    | none =>
      by_cases hm : t.app.Cfg.Dns.DnsMode = "udp_relay_via_socks5" <;>
        by_cases hc : env.DNSCache = true <;> simp [closeAndStop, hm, hc]

/-- The tunnel and the fate of the loop after the body of writeToLocal. -/
theorem writeToLocalChunk_close (env : Env) (t : UdpTunnel) (chunk : Bytes)
    (writeErr : Option Error) :
    (writeToLocalChunk env t chunk writeErr).ctl.alive = false ∧
    (writeToLocalChunk env t chunk writeErr).tunnel =
      (Close t (match writeToLocalPacket env t chunk, writeErr with
        | none, _ => "pack ip packet return nil"
        | some _, some err => err
        | some _, none => "OK")).tunnel := by
  unfold writeToLocalChunk
  cases hp : writeToLocalPacket env t chunk with
  | none => exact ⟨(closeAndStop_spec _ _ _).2.2.1, rfl⟩
  | some pkt =>
    cases writeErr with
    | some err => exact ⟨(closeAndStop_spec _ _ _).2.2.1, rfl⟩
    | none => exact ⟨(closeAndStop_spec _ _ _).2.2.1, rfl⟩

/-- C4, as stated, fails: for a flow whose remote host is 2001:db8::1, which is not an
IPv4 address, the synthesiser is called with a nil source address, not with the remote
address of the flow; the example synthesiser then returns nil, nothing is written to
the interface and Close is called. -/
theorem writeToLocal_non_IPv4_source_is_nil :
    (exWithRemoteV6 [7, 7]).localEndpoint.LocalAddress =
      [0x20, 0x01, 0x0d, 0xb8, 0, 0, 0, 0, 0, 0, 0, 0, 0, 0, 0, 1] ∧
    (writeToLocal exEnv (exWithRemoteV6 [7, 7]) false none).trace.filter
        Effect.isCreateDNSResponse =
      [.CreateDNSResponse [] 53 (IPv4 10 0 0 2) 5353 [7, 7]] ∧
    (writeToLocal exEnv (exWithRemoteV6 [7, 7]) false none).trace.filter Effect.isIfceWrite = [] ∧
    (writeToLocal exEnv (exWithRemoteV6 [7, 7]) false none).trace.filter Effect.isCallClose =
      [.CallClose "pack ip packet return nil"] := by
  decide

/-- C4, amended: for every payload chunk that writeToLocal takes from RemotePackets, the
synthesiser is called once, with source (IPv4 form of localEndpoint.LocalAddress,
localEndpoint.LocalPort), destination (IPv4 form of localAddr.Addr, localAddr.Port) and
the chunk as payload, where the IPv4 form of an address is the address itself when it
is IPv4 and nil when it is not; when the synthesiser returns a packet, exactly that
packet is written to the interface, once; when it returns nil, nothing is written, Close
is called (reason: pack ip packet return nil) and the loop is left, with Status Closed
when the Once had not fired on the running tunnel. The two hypotheses on bytes say that
the addresses are strings of bytes. -/
theorem writeToLocal_synthesis_IPv4_form (env : Env) (t : UdpTunnel) (c : Context)
    (chunk : Bytes) (ch : Chan) (pickDone : Bool) (writeErr : Option Error)
    (hctx : t.ctx = some c) (hrecv : t.RemotePackets.recv = some (chunk, ch))
    (hsel : ¬ (c.done = true ∧ pickDone = true))
    (hsrc : ∀ b ∈ t.localEndpoint.LocalAddress, b < 256)
    (hdst : ∀ b ∈ t.localAddr.Addr, b < 256) :
    (writeToLocal env t pickDone writeErr).trace.filter Effect.isCreateDNSResponse =
      [.CreateDNSResponse (asIPv4 t.localEndpoint.LocalAddress) t.localEndpoint.LocalPort
        (asIPv4 t.localAddr.Addr) t.localAddr.Port chunk] ∧
    (∀ pkt, env.CreateDNSResponse (asIPv4 t.localEndpoint.LocalAddress)
          t.localEndpoint.LocalPort (asIPv4 t.localAddr.Addr) t.localAddr.Port chunk = some pkt →
      (writeToLocal env t pickDone writeErr).trace.filter Effect.isIfceWrite =
        [.IfceWrite pkt writeErr]) ∧
    (env.CreateDNSResponse (asIPv4 t.localEndpoint.LocalAddress)
          t.localEndpoint.LocalPort (asIPv4 t.localAddr.Addr) t.localAddr.Port chunk = none →
      (writeToLocal env t pickDone writeErr).trace.filter Effect.isIfceWrite = [] ∧
      (writeToLocal env t pickDone writeErr).trace.filter Effect.isCallClose =
        [.CallClose "pack ip packet return nil"] ∧
      (writeToLocal env t pickDone writeErr).tunnel =
        (Close { t with RemotePackets := ch } "pack ip packet return nil").tunnel ∧
      (writeToLocal env t pickDone writeErr).ctl.alive = false ∧
      (t.closeOne = false → t.ctxCancel = .cancelCtx →
        (writeToLocal env t pickDone writeErr).tunnel.status = StatusClosed)) ∧
    (∀ a0 a1 a2 a3, t.localEndpoint.LocalAddress.To4 = [a0, a1, a2, a3] →
      asIPv4 t.localEndpoint.LocalAddress = IPv4 a0 a1 a2 a3) ∧
    (∀ b0 b1 b2 b3, t.localAddr.Addr.To4 = [b0, b1, b2, b3] →
      asIPv4 t.localAddr.Addr = IPv4 b0 b1 b2 b3) ∧
    (t.localEndpoint.LocalAddress.To4 = [] → asIPv4 t.localEndpoint.LocalAddress = []) ∧
    (t.localAddr.Addr.To4 = [] → asIPv4 t.localAddr.Addr = []) := by
  have hs := ParseIP_To4_String_eq _ hsrc
  have hd := ParseIP_To4_String_eq _ hdst
  have hpkt : writeToLocalPacket env { t with RemotePackets := ch } chunk =
      env.CreateDNSResponse (asIPv4 t.localEndpoint.LocalAddress) t.localEndpoint.LocalPort
        (asIPv4 t.localAddr.Addr) t.localAddr.Port chunk := by
    simp only [writeToLocalPacket, hs, hd]
  rw [writeToLocal_recv env t c chunk ch pickDone writeErr hctx hrecv hsel,
    writeToLocalChunk_trace, hpkt]
  simp only [hs, hd]
  refine ⟨?_, ?_, ?_, asIPv4_of_To4 _, asIPv4_of_To4 _, asIPv4_of_not_IPv4 _,
    asIPv4_of_not_IPv4 _⟩
  · cases env.CreateDNSResponse (asIPv4 t.localEndpoint.LocalAddress) t.localEndpoint.LocalPort
        (asIPv4 t.localAddr.Addr) t.localAddr.Port chunk with
    | none => simp [Effect.isCreateDNSResponse, Close_no_CreateDNSResponse]
    | some pkt =>
      cases writeErr with
      | some err => simp [Effect.isCreateDNSResponse, Close_no_CreateDNSResponse]
      | none =>
        by_cases hm : t.app.Cfg.Dns.DnsMode = "udp_relay_via_socks5" ∧ env.DNSCache = true <;>
          simp [hm, Effect.isCreateDNSResponse, Close_no_CreateDNSResponse]
  · intro pkt hp
    rw [hp]
    cases writeErr with
    | some err => simp [Effect.isIfceWrite, Close_no_IfceWrite]
    | none =>
      by_cases hm : t.app.Cfg.Dns.DnsMode = "udp_relay_via_socks5" ∧ env.DNSCache = true <;>
        simp [hm, Effect.isIfceWrite, Close_no_IfceWrite]
  · intro hp
    have hclose := writeToLocalChunk_close env { t with RemotePackets := ch } chunk writeErr
    rw [hpkt, hp] at hclose
    rw [hp]
    refine ⟨?_, ?_, hclose.2, hclose.1, ?_⟩
    · simp [Effect.isIfceWrite, Close_no_IfceWrite]
    · simp [Effect.isCallClose, Close_no_CallClose]
    · intro h1 h2
      rw [hclose.2]
      exact Close_sets_closed _ _ h1 h2

/-- Witness for C4 amended: the answer [7, 7] is delivered from 93.184.216.34:53 to
10.0.0.2:5353; for the flow whose remote host is 2001:db8::1 the source is nil and the
synthesiser returns nil, so nothing is written and Close is called. -/
theorem writeToLocal_synthesis_IPv4_form_witness :
    (writeToLocal exEnv (exWithRemote exApp [7, 7]) false none).trace.filter
        Effect.isCreateDNSResponse =
      [.CreateDNSResponse (asIPv4 [93, 184, 216, 34]) 53 (asIPv4 [10, 0, 0, 2]) 5353 [7, 7]] ∧
    asIPv4 [93, 184, 216, 34] = IPv4 93 184 216 34 ∧
    (writeToLocal exEnv (exWithRemote exApp [7, 7]) false none).trace.filter Effect.isIfceWrite =
      [.IfceWrite (IPv4 93 184 216 34 ++ 53 :: IPv4 10 0 0 2 ++ 5353 :: [7, 7]) none] ∧
    (writeToLocal exEnv (exWithRemoteV6 [7, 7]) false none).trace.filter Effect.isIfceWrite = [] ∧
    (writeToLocal exEnv (exWithRemoteV6 [7, 7]) false none).trace.filter Effect.isCallClose =
      [.CallClose "pack ip packet return nil"] :=
  ⟨(writeToLocal_synthesis_IPv4_form exEnv (exWithRemote exApp [7, 7]) { done := false } [7, 7]
      { buf := [], cap := 8, closed := false } false none rfl rfl (by decide) (by decide)
      (by decide)).1,
   by decide,
   (writeToLocal_synthesis_IPv4_form exEnv (exWithRemote exApp [7, 7]) { done := false } [7, 7]
      { buf := [], cap := 8, closed := false } false none rfl rfl (by decide) (by decide)
      (by decide)).2.1 _ (by decide),
   ((writeToLocal_synthesis_IPv4_form exEnv (exWithRemoteV6 [7, 7]) { done := false } [7, 7]
      { buf := [], cap := 8, closed := false } false none rfl rfl (by decide) (by decide)
      (by decide)).2.2.1 (by decide)).1,
   ((writeToLocal_synthesis_IPv4_form exEnv (exWithRemoteV6 [7, 7]) { done := false } [7, 7]
      { buf := [], cap := 8, closed := false } false none rfl rfl (by decide) (by decide)
      (by decide)).2.2.1 (by decide)).2.1⟩

/-- C9: for every payload chunk that writeToLocal takes from RemotePackets, the response
cache store is called, once and with that chunk, if and only if the synthesis returned
a packet, the write to the interface returned no error, the DNS mode is
udp_relay_via_socks5 and a DNS cache is present; when the write fails with an error it
is not called, and Close is called with that error and the loop is left. -/
theorem writeToLocal_cache_store (env : Env) (t : UdpTunnel) (c : Context) (chunk : Bytes)
    (ch : Chan) (pickDone : Bool) (writeErr : Option Error)
    (hctx : t.ctx = some c) (hrecv : t.RemotePackets.recv = some (chunk, ch))
    (hsel : ¬ (c.done = true ∧ pickDone = true)) :
    (writeToLocal env t pickDone writeErr).trace.filter Effect.isDNSCacheStore =
      (if (writeToLocalPacket env t chunk).isSome = true ∧ writeErr = none ∧
          t.app.Cfg.Dns.DnsMode = "udp_relay_via_socks5" ∧ env.DNSCache = true
        then [.DNSCacheStore chunk] else []) ∧
    (∀ pkt err, writeToLocalPacket env t chunk = some pkt → writeErr = some err →
      (writeToLocal env t pickDone writeErr).trace.filter Effect.isDNSCacheStore = [] ∧
      (writeToLocal env t pickDone writeErr).trace.filter Effect.isIfceWrite =
        [.IfceWrite pkt (some err)] ∧
      (writeToLocal env t pickDone writeErr).trace.filter Effect.isCallClose =
        [.CallClose err] ∧
      (writeToLocal env t pickDone writeErr).tunnel =
        (Close { t with RemotePackets := ch } err).tunnel ∧
      (writeToLocal env t pickDone writeErr).ctl.alive = false ∧
      (t.closeOne = false → t.ctxCancel = .cancelCtx →
        (writeToLocal env t pickDone writeErr).tunnel.status = StatusClosed)) := by
  have hpkt : writeToLocalPacket env { t with RemotePackets := ch } chunk =
      writeToLocalPacket env t chunk := rfl
  have hclose := writeToLocalChunk_close env { t with RemotePackets := ch } chunk writeErr
  rw [writeToLocal_recv env t c chunk ch pickDone writeErr hctx hrecv hsel,
    writeToLocalChunk_trace]
  rw [hpkt] at hclose ⊢
  refine ⟨?_, ?_⟩
  · cases writeToLocalPacket env t chunk with
    | none => simp [Effect.isDNSCacheStore, Close_no_IfceWrite, Close_no_CreateDNSResponse, Close_no_DNSCacheStore,
        Close_no_CallClose]
    | some pkt =>
      cases writeErr with
      | some err => simp [Effect.isDNSCacheStore, Close_no_IfceWrite, Close_no_CreateDNSResponse, Close_no_DNSCacheStore,
        Close_no_CallClose]
      | none =>
        simp only [List.filter_cons, List.filter_append, Close_no_IfceWrite, Close_no_CreateDNSResponse, Close_no_DNSCacheStore,
        Close_no_CallClose]
        by_cases hm : t.app.Cfg.Dns.DnsMode = "udp_relay_via_socks5" <;>
          by_cases hc : env.DNSCache = true <;> simp [Effect.isDNSCacheStore, hm, hc]
  · intro pkt err hp he
    subst he
    rw [hp] at hclose ⊢
    refine ⟨?_, ?_, ?_, hclose.2, hclose.1, ?_⟩
    · simp [Effect.isDNSCacheStore, Close_no_IfceWrite, Close_no_CreateDNSResponse, Close_no_DNSCacheStore,
        Close_no_CallClose]
    · simp [Effect.isIfceWrite, Close_no_IfceWrite, Close_no_CreateDNSResponse, Close_no_DNSCacheStore,
        Close_no_CallClose]
    · simp [Effect.isCallClose, Close_no_IfceWrite, Close_no_CreateDNSResponse, Close_no_DNSCacheStore,
        Close_no_CallClose]
    · intro h1 h2
      rw [hclose.2]
      exact Close_sets_closed _ _ h1 h2

/-- Witness for C9: with the cache on, the delivered answer [7, 7] is stored; when the
interface write fails, nothing is stored. -/
theorem writeToLocal_cache_store_witness :
    (writeToLocal exEnv (exWithRemote exApp [7, 7]) false none).trace.filter
        Effect.isDNSCacheStore = [.DNSCacheStore [7, 7]] ∧
    (writeToLocal exEnv (exWithRemote exApp [7, 7]) false (some "EIO")).trace.filter
        Effect.isDNSCacheStore = [] ∧
    (writeToLocal exEnv (exWithRemote exApp [7, 7]) false (some "EIO")).trace.filter
        Effect.isCallClose = [.CallClose "EIO"] :=
  ⟨((writeToLocal_cache_store exEnv (exWithRemote exApp [7, 7]) { done := false } [7, 7]
      { buf := [], cap := 8, closed := false } false none rfl rfl (by decide)).1).trans
      (by decide),
   ((writeToLocal_cache_store exEnv (exWithRemote exApp [7, 7]) { done := false } [7, 7]
      { buf := [], cap := 8, closed := false } false (some "EIO") rfl rfl (by decide)).2
      (IPv4 93 184 216 34 ++ 53 :: IPv4 10 0 0 2 ++ 5353 :: [7, 7]) "EIO" (by decide) rfl).1,
   ((writeToLocal_cache_store exEnv (exWithRemote exApp [7, 7]) { done := false } [7, 7]
      { buf := [], cap := 8, closed := false } false (some "EIO") rfl rfl (by decide)).2
      (IPv4 93 184 216 34 ++ 53 :: IPv4 10 0 0 2 ++ 5353 :: [7, 7]) "EIO" (by decide) rfl).2.2.1⟩

/-- Trace of leaving a loop through Close. -/
theorem closeAndStop_trace (t : UdpTunnel) (pre : List Effect) (reason : Error) :
    (closeAndStop t pre reason).trace = pre ++ .CallClose reason :: (Close t reason).trace := rfl

/-- Tunnel after leaving a loop through Close. -/
theorem closeAndStop_tunnel (t : UdpTunnel) (pre : List Effect) (reason : Error) :
    (closeAndStop t pre reason).tunnel = (Close t reason).tunnel := rfl

/-- A loop that leaves through Close is over. -/
theorem closeAndStop_alive (t : UdpTunnel) (pre : List Effect) (reason : Error) :
    (closeAndStop t pre reason).ctl.alive = false :=
  (closeAndStop_spec t pre reason).2.2.1

/-- The end of an iteration of readFromRemote, by receive error. -/
theorem readFromRemoteErr_spec (t : UdpTunnel) (pre : List Effect) (err : Option Error) :
    (readFromRemoteErr t pre err).trace.filter Effect.isSendRemotePackets =
      pre.filter Effect.isSendRemotePackets ∧
    (readFromRemoteErr t pre err).tunnel.RemotePackets.buf = t.RemotePackets.buf ∧
    (readFromRemoteErr t pre err).trace.filter Effect.isCallClose =
      pre.filter Effect.isCallClose ++ (match err with
        | some e => [.CallClose e]
        | none => []) ∧
    (readFromRemoteErr t pre err).ctl.alive = err.isNone := by
  cases err with
  | none => simp [readFromRemoteErr, Ctl.alive]
  | some e =>
    simp [readFromRemoteErr, closeAndStop_trace, closeAndStop_tunnel, closeAndStop_alive,
      Close_no_SendRemotePackets, Close_no_CallClose, (Close_keeps t e).1, Effect.isCallClose,
      Effect.isSendRemotePackets]

/-- An iteration of readFromRemote that gets as far as the receive, on a tunnel whose
queue RemotePackets takes a send whenever Status is not Closed (open, with room): if the receive
returns n > 0 bytes and parsing them fails, Close is called (with the parse error),
nothing is pushed onto RemotePackets and the loop is left; if parsing succeeds and
Status is not Closed, exactly the decoded Data is pushed onto RemotePackets, and if
Status is Closed nothing is pushed; and whenever the receive returns an error, for any
n and whatever the error is, Close is called once and the loop is left, while without
receive error and without parse error Close is not called and the loop goes on. -/
theorem readFromRemote_with_room (env : Env) (t : UdpTunnel) (c : Context) (recvd : Bytes)
    (err : Option Error) (hctx : t.ctx = some c) (hdone : c.done = false)
    (hq : t.status ≠ StatusClosed →
      t.RemotePackets.closed = false ∧ t.RemotePackets.buf.length < t.RemotePackets.cap) :
    (0 < (recvd.take env.PktChannelSize).length →
      (∀ perr, env.ParseUDPRequest (recvd.take env.PktChannelSize) = .error perr →
        (readFromRemote env t recvd err).trace.filter Effect.isCallClose = [.CallClose perr] ∧
        (readFromRemote env t recvd err).trace.filter Effect.isSendRemotePackets = [] ∧
        (readFromRemote env t recvd err).tunnel.RemotePackets.buf = t.RemotePackets.buf ∧
        (readFromRemote env t recvd err).tunnel = (Close t perr).tunnel ∧
        (readFromRemote env t recvd err).ctl.alive = false) ∧
      (∀ udpReq, env.ParseUDPRequest (recvd.take env.PktChannelSize) = .ok udpReq →
        (t.status ≠ StatusClosed →
          (readFromRemote env t recvd err).trace.filter Effect.isSendRemotePackets =
            [.SendRemotePackets udpReq.Data] ∧
          (readFromRemote env t recvd err).tunnel.RemotePackets.buf =
            t.RemotePackets.buf ++ [udpReq.Data]) ∧
        (t.status = StatusClosed →
          (readFromRemote env t recvd err).trace.filter Effect.isSendRemotePackets = [] ∧
          (readFromRemote env t recvd err).tunnel.RemotePackets.buf = t.RemotePackets.buf))) ∧
    (∀ e, err = some e →
      ((readFromRemote env t recvd err).trace.filter Effect.isCallClose).length = 1 ∧
      (readFromRemote env t recvd err).ctl.alive = false) ∧
    (err = none →
      (∀ perr, env.ParseUDPRequest (recvd.take env.PktChannelSize) ≠ .error perr) →
      (readFromRemote env t recvd err).trace.filter Effect.isCallClose = [] ∧
      (readFromRemote env t recvd err).ctl = .next) := by
  have hlive : readFromRemote env t recvd err =
      (if (recvd.take env.PktChannelSize).length > 0 then
        match env.ParseUDPRequest (recvd.take env.PktChannelSize) with
        | .error perr => closeAndStop t [.ReadFromUDP] perr
        | .ok udpReq =>
          if t.status ≠ StatusClosed then readFromRemoteSend t [.ReadFromUDP] udpReq.Data err
          else readFromRemoteErr t [.ReadFromUDP] err
      else readFromRemoteErr t [.ReadFromUDP] err) := by
    simp only [readFromRemote, hctx, hdone, Bool.false_eq_true, if_false]
  have hsend : ∀ data, t.status ≠ StatusClosed →
      readFromRemoteSend t [.ReadFromUDP] data err =
        readFromRemoteErr { t with RemotePackets := { t.RemotePackets with
          buf := t.RemotePackets.buf ++ [data] } } [.ReadFromUDP, .SendRemotePackets data] err := by
    intro data hs
    obtain ⟨h1, h2⟩ := hq hs
    simp [readFromRemoteSend, Chan.send, h1, h2]
  rw [hlive]
  refine ⟨?_, ?_, ?_⟩
  · intro hn
    simp only [gt_iff_lt, hn, if_true]
    refine ⟨?_, ?_⟩
    · intro perr hp
      simp [hp, closeAndStop_trace, closeAndStop_tunnel, closeAndStop_alive,
        Close_no_SendRemotePackets, Close_no_CallClose, (Close_keeps t perr).1,
        Effect.isCallClose, Effect.isSendRemotePackets]
    · intro udpReq hp
      simp only [hp]
      refine ⟨?_, ?_⟩
      · intro hs
        rw [if_pos hs, hsend _ hs]
        have h := readFromRemoteErr_spec { t with RemotePackets := { t.RemotePackets with
          buf := t.RemotePackets.buf ++ [udpReq.Data] } }
          [.ReadFromUDP, .SendRemotePackets udpReq.Data] err
        exact ⟨by rw [h.1]; simp [Effect.isSendRemotePackets], h.2.1⟩
      · intro hs
        rw [if_neg (by simp [hs])]
        have h := readFromRemoteErr_spec t [.ReadFromUDP] err
        exact ⟨by rw [h.1]; simp [Effect.isSendRemotePackets], h.2.1⟩
  · intro e he
    subst he
    by_cases hn : (recvd.take env.PktChannelSize).length > 0
    · simp only [hn, if_true]
      cases hp : env.ParseUDPRequest (recvd.take env.PktChannelSize) with
      | error perr =>
        simp [closeAndStop_trace, closeAndStop_alive, Close_no_CallClose, Effect.isCallClose]
      | ok udpReq =>
        simp only []
        by_cases hs : t.status = StatusClosed
        · rw [if_neg (by simp [hs])]
          have h := readFromRemoteErr_spec t [.ReadFromUDP] (some e)
          exact ⟨by rw [h.2.2.1]; simp [Effect.isCallClose], by rw [h.2.2.2]; rfl⟩
        · rw [if_pos hs, hsend _ hs]
          have h := readFromRemoteErr_spec { t with RemotePackets := { t.RemotePackets with
            buf := t.RemotePackets.buf ++ [udpReq.Data] } }
            [.ReadFromUDP, .SendRemotePackets udpReq.Data] (some e)
          exact ⟨by rw [h.2.2.1]; simp [Effect.isCallClose], by rw [h.2.2.2]; rfl⟩
    · rw [if_neg hn]
      have h := readFromRemoteErr_spec t [.ReadFromUDP] (some e)
      exact ⟨by rw [h.2.2.1]; simp [Effect.isCallClose], by rw [h.2.2.2]; rfl⟩
  · intro he hnp
    subst he
    by_cases hn : (recvd.take env.PktChannelSize).length > 0
    · simp only [hn, if_true]
      cases hp : env.ParseUDPRequest (recvd.take env.PktChannelSize) with
      | error perr => exact absurd hp (hnp perr)
      | ok udpReq =>
        simp only []
        by_cases hs : t.status = StatusClosed
        · rw [if_neg (by simp [hs])]
          simp [readFromRemoteErr, Effect.isCallClose]
        · rw [if_pos hs, hsend _ hs]
          simp [readFromRemoteErr, Effect.isCallClose]
    · rw [if_neg hn]
      simp [readFromRemoteErr, Effect.isCallClose]

/-- On the example tunnel, whose queue has room: a datagram whose envelope carries
[9, 9]; a datagram too short to parse; a receive error without data. -/
theorem readFromRemote_with_room_example :
    (readFromRemote exEnv (exRunning exApp) [0, 0, 0, 1, 9, 9] none).tunnel.RemotePackets.buf =
      [[9, 9]] ∧
    (readFromRemote exEnv (exRunning exApp) [0, 0, 0] none).trace.filter Effect.isCallClose =
      [.CallClose "short packet"] ∧
    ((readFromRemote exEnv (exRunning exApp) [] (some "use of closed connection")).trace.filter
      Effect.isCallClose).length = 1 :=
  ⟨((((readFromRemote_with_room exEnv (exRunning exApp) { done := false } [0, 0, 0, 1, 9, 9] none
      rfl rfl (fun _ => by decide)).1 (by decide)).2
      { Frag := 0, HostType := SocksIPv4Host, DstHost := "", DstPort := 0, Data := [9, 9] }
      rfl).1 (by decide)).2,
   (((readFromRemote_with_room exEnv (exRunning exApp) { done := false } [0, 0, 0] none
      rfl rfl (fun _ => by decide)).1 (by decide)).1 "short packet" rfl).1,
   ((readFromRemote_with_room exEnv (exRunning exApp) { done := false } []
      (some "use of closed connection") rfl rfl (fun _ => by decide)).2.1
      "use of closed connection" rfl).1⟩

/-- C10 (code defect): on the running example tunnel whose queue RemotePackets is full,
with Status Proxying, a parsable datagram carrying [9, 9] makes readFromRemote park in
its send: nothing is pushed, and even when the receive also returned an error Close is
not called and the loop is not left. When Close is then called from outside, it closes
RemotePackets under the parked send, which panics with send on closed channel: the
payload [9, 9] is never pushed, although parsing succeeded and Status was not Closed
when it was checked. -/
theorem readFromRemote_parked_send_panics_after_Close :
    exFull.status = StatusProxying ∧
    exEnv.ParseUDPRequest [0, 0, 0, 1, 9, 9] =
      .ok { Frag := 0, HostType := SocksIPv4Host, DstHost := "", DstPort := 0, Data := [9, 9] } ∧
    (readFromRemote exEnv exFull [0, 0, 0, 1, 9, 9] (some "read error")).trace =
      [.ReadFromUDP] ∧
    (readFromRemote exEnv exFull [0, 0, 0, 1, 9, 9] (some "read error")).ctl = .blocked ∧
    (readFromRemote exEnv exFull [0, 0, 0, 1, 9, 9] (some "read error")).tunnel.RemotePackets.buf =
      List.replicate 8 [1] ∧
    ((System.start exFull).run exEnv exRaceEvents).crashed = true ∧
    ((System.start exFull).run exEnv exRaceEvents).trace =
      [.ReadFromUDP, .CallClose "x", .CtxCancel, .SetStatus StatusClosed, .TcpClose, .UdpClose,
        .DelUDPNat 5353, .CloseLocalPackets, .CloseRemotePackets] ∧
    ((System.start exFull).run exEnv exRaceEvents).tunnel.RemotePackets.buf =
      List.replicate 8 [1] ∧
    (readFromRemoteSend ((System.start exFull).run exEnv
        [.stepReadFromRemote [0, 0, 0, 1, 9, 9] none, .close "x"]).tunnel [] [9, 9] none).ctl =
      .fault "send on closed channel" := by
  refine ⟨rfl, rfl, ?_, ?_, ?_, ?_, ?_, ?_, ?_⟩ <;> decide

/-! ## One-shot delivery -/

/-- Agreement on the core fields is reflexive. -/
theorem SameCore.refl (t : UdpTunnel) : SameCore t t := ⟨rfl, rfl, rfl⟩

/-- Close keeps a started tunnel started and leaves it Closed. -/
theorem Close_Started (t : UdpTunnel) (reason : Error) (h : Started t) :
    Started (Close t reason).tunnel ∧ (Close t reason).tunnel.status = StatusClosed := by
  have hst : (Close t reason).tunnel.status = StatusClosed := by
    by_cases h1 : t.closeOne = true
    · rw [Close_fired t reason h1]
      exact h.2 h1
    · exact Close_sets_closed t reason (by simpa using h1) h.1
  exact ⟨⟨by rw [(Close_keeps t reason).2.2]; exact h.1, fun _ => hst⟩, hst⟩

/-- A step keeps a started tunnel started and a Closed status Closed. -/
theorem StepOf.keeps {t u : UdpTunnel} (h : StepOf t u) (hs : Started t) :
    Started u ∧ (t.status = StatusClosed → u.status = StatusClosed) := by
  rcases h with ⟨h1, h2, h3⟩ | ⟨v, reason, ⟨h1, h2, h3⟩, rfl⟩
  · exact ⟨⟨by rw [h1]; exact hs.1, fun hc => by rw [h3]; exact hs.2 (by rw [← h2]; exact hc)⟩,
      fun hc => by rw [h3]; exact hc⟩
  · have hv : Started v :=
      ⟨by rw [h1]; exact hs.1, fun hc => by rw [h3]; exact hs.2 (by rw [← h2]; exact hc)⟩
    exact ⟨(Close_Started v reason hv).1, fun _ => (Close_Started v reason hv).2⟩

/-- A write without error is a write. -/
theorem isDelivery_isIfceWrite (e : Effect) (h : e.isDelivery = true) : e.isIfceWrite = true := by
  cases e <;> simp_all [Effect.isDelivery, Effect.isIfceWrite]

/-- A trace without writes has no write without error. -/
theorem no_delivery_of_no_write (tr : List Effect) (h : tr.filter Effect.isIfceWrite = []) :
    tr.any Effect.isDelivery = false := by
  rw [Bool.eq_false_iff]
  intro hany
  obtain ⟨e, he, hd⟩ := List.any_eq_true.mp hany
  have : e ∈ tr.filter Effect.isIfceWrite := List.mem_filter.mpr ⟨he, isDelivery_isIfceWrite e hd⟩
  rw [h] at this
  exact List.not_mem_nil _ this

/-- The invariant survives a step that writes nothing to the interface. -/
theorem OneShot.extend {t u : UdpTunnel} {tr tr2 : List Effect} {alive : Bool}
    (h : OneShot t tr alive) (hstep : StepOf t u) (hw : tr2.filter Effect.isIfceWrite = []) :
    OneShot u (tr ++ tr2) alive := by
  obtain ⟨h1, h2, h3, h4⟩ := h
  have hk := hstep.keeps h1
  refine ⟨hk.1, ?_, ?_, ?_⟩
  · rw [List.filter_append, hw, List.append_nil]; exact h2
  · intro ha; rw [List.filter_append, hw, List.append_nil]; exact h3 ha
  · intro hd
    rw [List.any_append, no_delivery_of_no_write tr2 hw, Bool.or_false] at hd
    obtain ⟨c1, c2, c3⟩ := h4 hd
    exact ⟨by rw [List.any_append, c1, Bool.true_or], hk.2 c2, c3⟩

/-- An iteration of readFromRemote, from its send on: a step that writes nothing to the
interface. -/
theorem readFromRemoteSend_step (t : UdpTunnel) (pre : List Effect) (data : Bytes)
    (err : Option Error) (hpre : pre.filter Effect.isIfceWrite = []) :
    StepOf t (readFromRemoteSend t pre data err).tunnel ∧
    (readFromRemoteSend t pre data err).trace.filter Effect.isIfceWrite = [] := by
  unfold readFromRemoteSend
  cases hs : t.RemotePackets.send data with
  | blocked => exact ⟨Or.inl (SameCore.refl t), hpre⟩
  | sendOnClosed => exact ⟨Or.inl (SameCore.refl t), hpre⟩
  | sent ch =>
    cases err with
    | none =>
      simp only [readFromRemoteErr]
      exact ⟨Or.inl ⟨rfl, rfl, rfl⟩, by simp [hpre, Effect.isIfceWrite]⟩
    | some e =>
      simp only [readFromRemoteErr, closeAndStop_trace, closeAndStop_tunnel]
      refine ⟨Or.inr ⟨_, e, ?_, rfl⟩, by simp [hpre, Effect.isIfceWrite, Close_no_IfceWrite]⟩
      exact ⟨rfl, rfl, rfl⟩

/-- An iteration of readFromRemote: a step that writes nothing to the interface. -/
theorem readFromRemote_step (env : Env) (t : UdpTunnel) (recvd : Bytes) (err : Option Error) :
    StepOf t (readFromRemote env t recvd err).tunnel ∧
    (readFromRemote env t recvd err).trace.filter Effect.isIfceWrite = [] := by
  have herr : StepOf t (readFromRemoteErr t [.ReadFromUDP] err).tunnel ∧
      (readFromRemoteErr t [.ReadFromUDP] err).trace.filter Effect.isIfceWrite = [] := by
    cases err with
    | none => exact ⟨Or.inl (SameCore.refl t), rfl⟩
    | some e =>
      simp only [readFromRemoteErr, closeAndStop_trace, closeAndStop_tunnel]
      exact ⟨Or.inr ⟨t, e, SameCore.refl t, rfl⟩, by simp [Effect.isIfceWrite, Close_no_IfceWrite]⟩
  unfold readFromRemote
  cases hc : t.ctx with
  | none => exact ⟨Or.inl (SameCore.refl t), rfl⟩
  | some c =>
    simp only []
    by_cases hd : c.done = true
    · simp only [hd, if_true]
      exact ⟨Or.inl (SameCore.refl t), rfl⟩
    · simp only [hd, if_false, Bool.false_eq_true]
      by_cases hn : (recvd.take env.PktChannelSize).length > 0
      · simp only [hn, if_true]
        cases hp : env.ParseUDPRequest (recvd.take env.PktChannelSize) with
        | error perr =>
          simp only [closeAndStop_trace, closeAndStop_tunnel]
          exact ⟨Or.inr ⟨t, perr, SameCore.refl t, rfl⟩,
            by simp [Effect.isIfceWrite, Close_no_IfceWrite]⟩
        | ok udpReq =>
          simp only []
          by_cases hs : t.status = StatusClosed
          · rw [if_neg (by simp [hs])]
            exact herr
          · rw [if_pos hs]
            exact readFromRemoteSend_step t _ _ _ rfl
      · rw [if_neg hn]
        exact herr

/-- An iteration of writeToRemote: a step that writes nothing to the interface. -/
theorem writeToRemote_step (env : Env) (t : UdpTunnel) (pickDone : Bool)
    (sendErr : Option Error) :
    StepOf t (writeToRemote env t pickDone sendErr).tunnel ∧
    (writeToRemote env t pickDone sendErr).trace.filter Effect.isIfceWrite = [] := by
  unfold writeToRemote
  cases hc : t.ctx with
  | none => exact ⟨Or.inl (SameCore.refl t), rfl⟩
  | some c =>
    simp only []
    cases hr : t.LocalPackets.recv with
    | none => exact ⟨Or.inl (SameCore.refl t), rfl⟩
    | some v =>
      obtain ⟨chunk, ch⟩ := v
      simp only []
      by_cases hsel : c.done = true ∧ pickDone = true
      · rw [if_pos hsel]
        exact ⟨Or.inl (SameCore.refl t), rfl⟩
      · rw [if_neg hsel]
        unfold writeToRemoteChunk
        cases sendErr with
        | none => exact ⟨Or.inl ⟨rfl, rfl, rfl⟩, rfl⟩
        | some e =>
          simp only [closeAndStop_trace, closeAndStop_tunnel]
          refine ⟨Or.inr ⟨_, e, ?_, rfl⟩, by simp [Effect.isIfceWrite, Close_no_IfceWrite]⟩
          exact ⟨rfl, rfl, rfl⟩

/-- The body of writeToLocal makes at most one write to the interface, always ends in
Close and always leaves the loop. -/
theorem writeToLocalChunk_step (env : Env) (t : UdpTunnel) (chunk : Bytes)
    (writeErr : Option Error) :
    ((writeToLocalChunk env t chunk writeErr).trace.filter Effect.isIfceWrite).length ≤ 1 ∧
    (writeToLocalChunk env t chunk writeErr).trace.any Effect.isCallClose = true ∧
    (writeToLocalChunk env t chunk writeErr).ctl.alive = false ∧
    ∃ reason, (writeToLocalChunk env t chunk writeErr).tunnel = (Close t reason).tunnel := by
  have hc := writeToLocalChunk_close env t chunk writeErr
  refine ⟨?_, ?_, hc.1, _, hc.2⟩
  · rw [writeToLocalChunk_trace]
    cases writeToLocalPacket env t chunk with
    | none => simp [Effect.isIfceWrite, Close_no_IfceWrite]
    | some pkt =>
      cases writeErr with
      | some err => simp [Effect.isIfceWrite, Close_no_IfceWrite]
      | none =>
        by_cases hm : t.app.Cfg.Dns.DnsMode = "udp_relay_via_socks5" ∧ env.DNSCache = true <;>
          simp [hm, Effect.isIfceWrite, Close_no_IfceWrite]
  · rw [writeToLocalChunk_trace]
    cases writeToLocalPacket env t chunk with
    | none => simp [Effect.isCallClose]
    | some pkt =>
      cases writeErr with
      | some err => simp [Effect.isCallClose]
      | none => simp [Effect.isCallClose]

/-- An iteration of writeToLocal either does nothing, or takes a chunk and runs the
body on it. -/
theorem writeToLocal_cases (env : Env) (t : UdpTunnel) (pickDone : Bool)
    (writeErr : Option Error) :
    ((writeToLocal env t pickDone writeErr).tunnel = t ∧
      (writeToLocal env t pickDone writeErr).trace = []) ∨
    ∃ chunk ch, writeToLocal env t pickDone writeErr =
      writeToLocalChunk env { t with RemotePackets := ch } chunk writeErr := by
  unfold writeToLocal
  cases hc : t.ctx with
  | none => exact Or.inl ⟨rfl, rfl⟩
  | some c =>
    simp only []
    cases hr : t.RemotePackets.recv with
    | none => exact Or.inl ⟨rfl, rfl⟩
    | some v =>
      obtain ⟨chunk, ch⟩ := v
      simp only []
      by_cases hsel : c.done = true ∧ pickDone = true
      · rw [if_pos hsel]
        exact Or.inl ⟨rfl, rfl⟩
      · rw [if_neg hsel]
        exact Or.inr ⟨chunk, ch, rfl⟩

/-- The invariant survives an iteration of writeToLocal. -/
theorem OneShot.writeToLocal {t : UdpTunnel} {tr : List Effect} (env : Env) (pickDone : Bool)
    (writeErr : Option Error) (h : OneShot t tr true) :
    OneShot (Tunnel.writeToLocal env t pickDone writeErr).tunnel
      (tr ++ (Tunnel.writeToLocal env t pickDone writeErr).trace)
      (Tunnel.writeToLocal env t pickDone writeErr).ctl.alive := by
  obtain ⟨h1, h2, h3, h4⟩ := h
  have hnone := h3 rfl
  rcases writeToLocal_cases env t pickDone writeErr with ⟨e1, e2⟩ | ⟨chunk, ch, e⟩
  · rw [e1, e2, List.append_nil]
    refine ⟨h1, h2, fun _ => hnone, ?_⟩
    intro hd
    rw [no_delivery_of_no_write tr hnone] at hd
    exact absurd hd (by decide)
  · rw [e]
    obtain ⟨w1, w2, w3, reason, w4⟩ :=
      writeToLocalChunk_step env { t with RemotePackets := ch } chunk writeErr
    have hs : Started { t with RemotePackets := ch } := h1
    have hcl := Close_Started { t with RemotePackets := ch } reason hs
    refine ⟨by rw [w4]; exact hcl.1, ?_, ?_, ?_⟩
    · rw [List.filter_append, hnone, List.nil_append]; exact w1
    · intro ha; rw [w3] at ha; exact absurd ha (by decide)
    · intro _
      exact ⟨by rw [List.any_append, w2, Bool.or_true], by rw [w4]; exact hcl.2, w3⟩

/-- Every event keeps the invariant. -/
theorem OneShot.step (env : Env) (s : System) (ev : Event)
    (h : OneShot s.tunnel s.trace s.writeToLocalAlive) :
    OneShot (s.step env ev).tunnel (s.step env ev).trace (s.step env ev).writeToLocalAlive := by
  cases ev with
  | stepWriteToLocal pickDone writeErr =>
    simp only [System.step]
    by_cases hc : s.crashed = true ∨ ¬ s.writeToLocalAlive = true
    · rw [if_pos hc]; exact h
    · rw [if_neg hc]
      have ha : s.writeToLocalAlive = true := by
        by_contra hn; exact hc (Or.inr hn)
      rw [ha] at h
      exact OneShot.writeToLocal env pickDone writeErr h
  | stepReadFromRemote recvd err =>
    simp only [System.step]
    by_cases hc : s.crashed = true ∨ ¬ s.readFromRemoteAlive = true
    · rw [if_pos hc]; exact h
    · rw [if_neg hc]
      cases hp : s.parked with
      | none =>
        have hs := readFromRemote_step env s.tunnel recvd err
        exact h.extend hs.1 hs.2
      | some v =>
        obtain ⟨data, perr⟩ := v
        have hs := readFromRemoteSend_step s.tunnel [] data perr rfl
        exact h.extend hs.1 hs.2
  | stepWriteToRemote pickDone sendErr =>
    simp only [System.step]
    by_cases hc : s.crashed = true ∨ ¬ s.writeToRemoteAlive = true
    · rw [if_pos hc]; exact h
    · rw [if_neg hc]
      have hs := writeToRemote_step env s.tunnel pickDone sendErr
      exact h.extend hs.1 hs.2
  | localPacket chunk =>
    simp only [System.step]
    by_cases hc : s.crashed = true
    · rw [if_pos hc]; exact h
    · rw [if_neg hc]
      cases hsend : s.tunnel.LocalPackets.send chunk with
      | sent ch =>
        have hcore : SameCore s.tunnel { s.tunnel with LocalPackets := ch } := ⟨rfl, rfl, rfl⟩
        have hnil : ([] : List Effect).filter Effect.isIfceWrite = [] := rfl
        have := h.extend (Or.inl hcore) hnil
        simpa using this
      | blocked => exact h
      | sendOnClosed => exact h
  | close reason =>
    simp only [System.step]
    by_cases hc : s.crashed = true
    · rw [if_pos hc]; exact h
    · rw [if_neg hc]
      exact h.extend (Or.inr ⟨s.tunnel, reason, SameCore.refl _, rfl⟩)
        (by simp [Effect.isIfceWrite, Close_no_IfceWrite])

/-- Every run keeps the invariant. -/
theorem OneShot.run (env : Env) (evs : List Event) (s : System)
    (h : OneShot s.tunnel s.trace s.writeToLocalAlive) :
    OneShot (s.run env evs).tunnel (s.run env evs).trace (s.run env evs).writeToLocalAlive := by
  induction evs generalizing s with
  | nil => exact h
  | cons ev evs ih =>
    simp only [System.run, List.foldl_cons]
    exact ih (s.step env ev) (OneShot.step env s ev h)

/-- C5: one-shot completion. For every running tunnel and every interleaving of
iterations of its three loops, arrivals of captured payloads and outside calls of Close,
with any payloads arriving from the proxy, at most one write to the interface is ever
performed; and from the moment writeToLocal has written one payload to the interface
without error, Close has been called, Status is Closed and the loop of writeToLocal has
stopped. -/
theorem one_shot_delivery (env : Env) (t : UdpTunnel) (evs : List Event) (h : Running t) :
    (((System.start t).run env evs).trace.filter Effect.isIfceWrite).length ≤ 1 ∧
    (((System.start t).run env evs).trace.any Effect.isDelivery = true →
      ((System.start t).run env evs).trace.any Effect.isCallClose = true ∧
      ((System.start t).run env evs).tunnel.status = StatusClosed ∧
      ((System.start t).run env evs).writeToLocalAlive = false) := by
  have h0 : OneShot (System.start t).tunnel (System.start t).trace
      (System.start t).writeToLocalAlive := by
    refine ⟨⟨h.2.1, fun hc => ?_⟩, by simp [System.start], fun _ => rfl, fun hd => ?_⟩
    · have hc2 : t.closeOne = true := hc
      rw [h.2.2.1] at hc2; exact absurd hc2 (by decide)
    · simp [System.start] at hd
  obtain ⟨_, h2, _, h4⟩ := OneShot.run env evs (System.start t) h0
  exact ⟨h2, h4⟩

/-- Witness for C5: in the example run the first answer, [7], is written to the
interface and nothing else ever is. -/
theorem one_shot_delivery_witness :
    Running (exRunning exApp) ∧
    ((((System.start (exRunning exApp)).run exEnv exEvents).trace.filter
        Effect.isIfceWrite).length ≤ 1 ∧
      (((System.start (exRunning exApp)).run exEnv exEvents).trace.any Effect.isDelivery = true →
        ((System.start (exRunning exApp)).run exEnv exEvents).trace.any Effect.isCallClose = true ∧
        ((System.start (exRunning exApp)).run exEnv exEvents).tunnel.status = StatusClosed ∧
        ((System.start (exRunning exApp)).run exEnv exEvents).writeToLocalAlive = false)) ∧
    ((System.start (exRunning exApp)).run exEnv exEvents).trace.filter Effect.isIfceWrite =
      [.IfceWrite (IPv4 93 184 216 34 ++ 53 :: IPv4 10 0 0 2 ++ 5353 :: [7]) none] :=
  ⟨by simp [Running, exRunning, exCreated, Run, SetStatus, Chan.make, exConn],
   one_shot_delivery exEnv (exRunning exApp) exEvents
     (by simp [Running, exRunning, exCreated, Run, SetStatus, Chan.make, exConn]),
   by decide⟩

end Tunnel
